import Mathlib

/-!
# KangKlip backend — shallow embedding and verification

This file embeds the data model and the HTTP handlers of the KangKlip
backend (an Express/Redis/Solana clip-unlock service) as executable Lean
definitions and proves/refutes the frozen claims about them.

Source correspondence:
* `src/unnamed/part_008`  — `JobStore` (Redis-backed store, Lua consume script)
* `src/unnamed/part_011`  — `models.ts` + `index.ts` (HTTP handlers)
* `src/unnamed/part_010`  — `config.ts` + `credits_client.ts`
* `src/backend/src/solana.ts` — signature / transaction helpers

Conventions of the embedding:
* Redis is modelled as a typed key-value state `St`; every `JobStore`
  method becomes a pure function on `St`.  Each Redis command (including
  the Lua script and `SET NX`) is atomic, matching Redis semantics.
* The loose JSON payloads of the source are modelled as typed records
  (`JobRecord`, `IdemRecord`, …) with the exact fields the source
  reads/writes.
* External collaborators (object store, RPC, Ed25519, PDA derivation)
  are supplied through an environment record `Env` of pure functions.
* The field `r2_prefix` of the source is embedded under the name
  `r2Dir` (same contents, renamed).
-/

set_option maxHeartbeats 1000000

namespace KangKlip

/-- Idempotency tag of an unlock outcome (`"NEW"` / `"REPLAY"` in the JSON). -/
inductive IdemTag
  | NEW
  | REPLAY
deriving DecidableEq, Repr

/-- A record stored under `idem:<unlockRequestId>`.
`pend` embeds the JSON `{status:"pending"}` marker; `fin` embeds a final
payload `{job_id, clip_file, (wallet,) unlocked, charged_credits, idempotency}`.
Final payloads written by the HTTP handler carry no `wallet` field; the
payload written by the Lua script's NEW branch does (`src/unnamed/part_008`,
lines 108-115). -/
inductive IdemRecord
  | pend
  | fin (jobId clipFile : String) (wallet : Option String)
        (unlocked : Bool) (chargedCredits : Nat) (tag : IdemTag)
deriving DecidableEq, Repr

/-- `true` exactly for a final record tagged NEW (used by the ghost counter). -/
def isNewFinal : IdemRecord → Bool
  | .fin _ _ _ _ _ .NEW => true
  | _ => false

/-- Payload stored under `unlock:pending:<unlockRequestId>`
(`{jobId, clipFile, wallet, txSig}`). -/
structure PendingRec where
  jobId : String
  clipFile : String
  wallet : String
  txSig : String
deriving DecidableEq, Repr

/-- Payload stored under `auth:nonce:<nonce>`
(`{wallet, challenge, expires_at}`, `expires_at` in epoch milliseconds). -/
structure NoncePayload where
  wallet : String
  challenge : String
  expiresAt : Int
deriving DecidableEq, Repr

/-- A job record (the JSON object stored under the job id), typed with the
fields the handlers read and write.  `r2Dir` embeds the source field
`r2_prefix`. -/
structure JobRecord where
  job_token : String
  status : String
  stage : Option String := none
  progress : Option Int := none
  r2Dir : Option String := none
  start_error : Option String := none
  error : Option String := none
  nosana_run_id : Option String := none
  deriving DecidableEq, Repr

/-- The Redis-backed store state (`JobStore` of `src/unnamed/part_008`),
one field per key family, plus the on-chain credit balances (the
`UserCredit` accounts read by `fetchOnchainCredits`) and one ghost
counter `idemNewWrites` counting, per request id, how many times a final
NEW idempotency record has been written (proof instrumentation only: no
operation reads it). -/
structure St where
  jobs : String → Option JobRecord
  ent : String → String → Bool
  spent : String → Nat
  idem : String → Option IdemRecord
  pendingU : String → Option PendingRec
  authNonce : String → Option NoncePayload
  authToken : String → Option String
  topupSig : String → Bool
  chain : String → Nat
  idemNewWrites : String → Nat

namespace JobStore

/-- `JobStore.get` — fetch a job record by id. -/
def get (st : St) (jobId : String) : Option JobRecord := st.jobs jobId

/-- `JobStore.set` — store a job record by id. -/
def set (st : St) (jobId : String) (payload : JobRecord) : St :=
  { st with jobs := fun k => if k = jobId then some payload else st.jobs k }

/-- `JobStore.isClipUnlocked` — `GET ent:<jobId>:<clipFile> == "1"`. -/
def isClipUnlocked (st : St) (jobId clipFile : String) : Bool :=
  st.ent jobId clipFile

/-- `JobStore.setClipUnlocked` — `SET ent:<jobId>:<clipFile> "1"`. -/
def setClipUnlocked (st : St) (jobId clipFile : String) : St :=
  { st with ent := fun a b => if a = jobId ∧ b = clipFile then true else st.ent a b }

/-- `JobStore.getSpentCredits` — `GET spent:<wallet>`, defaulting to 0. -/
def getSpentCredits (st : St) (wallet : String) : Nat := st.spent wallet

/-- `JobStore.setUnlockPending` — `SET unlock:pending:<id> <payload> EX 86400`. -/
def setUnlockPending (st : St) (reqId : String) (p : PendingRec) : St :=
  { st with pendingU := fun k => if k = reqId then some p else st.pendingU k }

/-- `JobStore.getUnlockPending` — read the pending marker. -/
def getUnlockPending (st : St) (reqId : String) : Option PendingRec :=
  st.pendingU reqId

/-- `JobStore.deleteUnlockPending` — `DEL unlock:pending:<id>`. -/
def deleteUnlockPending (st : St) (reqId : String) : St :=
  { st with pendingU := fun k => if k = reqId then none else st.pendingU k }

/-- `JobStore.getIdempotencyResult` — read `idem:<unlockRequestId>`. -/
def getIdempotencyResult (st : St) (reqId : String) : Option IdemRecord :=
  st.idem reqId

/-- `JobStore.setIdempotencyResult` — `SET idem:<id> <payload> EX 300`
(unconditional overwrite).  Also bumps the ghost NEW-write counter when
the payload is a final NEW record. -/
def setIdempotencyResult (st : St) (reqId : String) (r : IdemRecord) : St :=
  { st with
    idem := fun k => if k = reqId then some r else st.idem k
    idemNewWrites := fun k =>
      if k = reqId ∧ isNewFinal r then st.idemNewWrites k + 1 else st.idemNewWrites k }

/-- `JobStore.setIdempotencyIfAbsent` — `SET idem:<id> <payload> NX EX 300`;
returns whether the write happened.  Atomic (a single Redis command). -/
def setIdempotencyIfAbsent (st : St) (reqId : String) (r : IdemRecord) : Bool × St :=
  if (st.idem reqId).isSome then (false, st)
  else (true, setIdempotencyResult st reqId r)

/-- `JobStore.markTopupSignature` — `SET topup:tx:<sig> "1" NX`. -/
def markTopupSignature (st : St) (sig : String) : Bool × St :=
  if st.topupSig sig then (false, st)
  else (true, { st with topupSig := fun k => if k = sig then true else st.topupSig k })

/-- `JobStore.hasTopupSignature` — `GET topup:tx:<sig> == "1"`. -/
def hasTopupSignature (st : St) (sig : String) : Bool := st.topupSig sig

/-- `JobStore.setAuthNonce` — store an auth nonce payload (TTL'd). -/
def setAuthNonce (st : St) (nonce : String) (p : NoncePayload) : St :=
  { st with authNonce := fun k => if k = nonce then some p else st.authNonce k }

/-- `JobStore.getAuthNonce` — read an auth nonce payload. -/
def getAuthNonce (st : St) (nonce : String) : Option NoncePayload :=
  st.authNonce nonce

/-- `JobStore.deleteAuthNonce` — delete an auth nonce key. -/
def deleteAuthNonce (st : St) (nonce : String) : St :=
  { st with authNonce := fun k => if k = nonce then none else st.authNonce k }

/-- `JobStore.setAuthToken` — bind a token to a wallet (TTL 86400). -/
def setAuthToken (st : St) (token wallet : String) : St :=
  { st with authToken := fun k => if k = token then some wallet else st.authToken k }

/-- `JobStore.getAuthTokenWallet` — resolve a token to its wallet. -/
def getAuthTokenWallet (st : St) (token : String) : Option String :=
  st.authToken token

/-- Raw result of the Lua script inside `JobStore.consumeCredit`:
`{"REPLAY", payload}`, `{"NEW", payload}` or `{"INSUFFICIENT_CREDITS"}`. -/
inductive ScriptRes
  | replay (payload : IdemRecord)
  | newRes (payload : IdemRecord)
  | insufficient
deriving DecidableEq, Repr

/-- The Lua script of `JobStore.consumeCredit` (`src/unnamed/part_008`,
lines 74-118), executed as one atomic Redis transaction:
1. if `idem:<id>` exists, return it tagged `REPLAY` (no mutation);
2. else if `ent:<jobId>:<clipFile> == "1"`, write a REPLAY payload with
   `charged_credits = 0` under `idem:<id>` (`SET … NX`) and return it;
3. else if `spent + 1 > available`, return `INSUFFICIENT_CREDITS`
   without mutation;
4. else `INCRBY spent:<wallet> 1`, `SET ent:… "1"`, write a NEW payload
   with `charged_credits = 1` (and a `wallet` field) and return it. -/
def consumeCreditScript (st : St) (jobId clipFile wallet reqId : String)
    (available : Nat) : ScriptRes × St :=
  match st.idem reqId with
  | some p => (.replay p, st)
  | none =>
    if st.ent jobId clipFile then
      let payload : IdemRecord := .fin jobId clipFile none true 0 .REPLAY
      (.replay payload, (setIdempotencyIfAbsent st reqId payload).2)
    else
      let spentV := st.spent wallet
      if spentV + 1 > available then (.insufficient, st)
      else
        let st1 : St :=
          { st with spent := fun k => if k = wallet then st.spent k + 1 else st.spent k }
        let st2 := setClipUnlocked st1 jobId clipFile
        let payload : IdemRecord := .fin jobId clipFile (some wallet) true 1 .NEW
        (.newRes payload, (setIdempotencyIfAbsent st2 reqId payload).2)

/-- Result type of the TypeScript wrapper `JobStore.consumeCredit`. -/
inductive ConsumeRes
  | ok (unlocked : Bool) (chargedCredits : Nat) (tag : IdemTag)
  | insufficientCredits
deriving DecidableEq, Repr

/-- `charged_credits` as read by the wrapper's JSON parse
(`payload.charged_credits ?? 0`). -/
def chargedOf : IdemRecord → Nat
  | .pend => 0
  | .fin _ _ _ _ c _ => c

/-- `idempotency` as read by the wrapper (`payload.idempotency ?? "REPLAY"`). -/
def tagOf : IdemRecord → IdemTag
  | .pend => .REPLAY
  | .fin _ _ _ _ _ t => t

/-- `JobStore.consumeCredit` (`src/unnamed/part_008`, lines 60-153): run
the Lua script, then map the result: `INSUFFICIENT_CREDITS` becomes
`{unlocked:false}`; otherwise the returned payload is parsed and
`{unlocked:true, chargedCredits, idempotency}` is returned. -/
def consumeCredit (st : St) (jobId clipFile wallet reqId : String)
    (available : Nat) : ConsumeRes × St :=
  match consumeCreditScript st jobId clipFile wallet reqId available with
  | (.insufficient, st') => (.insufficientCredits, st')
  | (.replay p, st') => (.ok true (chargedOf p) (tagOf p), st')
  | (.newRes p, st') => (.ok true (chargedOf p) (tagOf p), st')

end JobStore

/-! ## External interfaces (Solana RPC, object store, crypto) -/

/-- A parsed instruction of a Solana transaction, with the fields the
backend reads (`src/backend/src/solana.ts`, `ParsedInstruction`): the
`program` / `programId` strings and the `parsed.info` fields used by
`totalUsdcTransferred`. -/
structure PIx where
  program : Option String := none
  programId : Option String := none
  infoSource : Option String := none
  infoDestination : Option String := none
  infoMint : Option String := none
  infoAuthority : Option String := none
  infoAmount : Option String := none
deriving DecidableEq, Repr

/-- A parsed transaction: outer instructions, inner instruction groups,
and whether `meta.err` is set. -/
structure PTx where
  outer : List PIx
  inner : List (List PIx)
  err : Bool
deriving DecidableEq, Repr

/-- `collectInstructions` — outer instructions followed by all inner ones. -/
def collectInstructions (tx : PTx) : List PIx :=
  tx.outer ++ tx.inner.flatten

/-- JavaScript truthy-guarded equality `x && x === pid`
(an absent or empty string never matches). -/
def truthyEq : Option String → String → Bool
  | some s, pid => if s = "" then false else s = pid
  | none, _ => false

/-- `hasProgramInstruction` (`src/backend/src/solana.ts`, lines 158-169):
scan outer and inner instructions for one whose `programId` or `program`
equals the given program id. -/
def hasProgramInstruction (tx : PTx) (programId : String) : Bool :=
  (collectInstructions tx).any fun i =>
    truthyEq i.programId programId || truthyEq i.program programId

/-- The environment of external collaborators, as pure functions:
Ed25519 verification, public-key validation, PDA/ATA derivation, the
object-store manifest and URL signer, the RPC transaction fetch, the
configuration values, and the current time.  The handlers are embedded
relative to an arbitrary `Env`. -/
structure Env where
  validKey : String → Bool
  edVerify : String → String → String → Bool
  manifest : String → Option (List String)
  signUrl : String → Nat → String
  parsedTx : String → Option PTx
  configPda : String
  userCreditPda : String → String
  ata : String → String → String
  creditsProgramId : String
  usdcMint : String
  treasury : String
  callbackToken : String
  nowMs : Int

/-- `totalUsdcTransferred` (`src/backend/src/solana.ts`, lines 200-239):
sum the amounts of `spl-token` transfer instructions from the wallet's
ATA (or authorized by the wallet) to the treasury's ATA (or the treasury)
in the given mint.  Defined in the source but called by no handler. -/
def totalUsdcTransferred (env : Env) (tx : PTx)
    (walletAddress treasuryAddress usdcMint : String) : Nat :=
  let walletAta := env.ata walletAddress usdcMint
  let treasuryAta := env.ata treasuryAddress usdcMint
  (collectInstructions tx).foldl
    (fun total i =>
      if i.program ≠ some "spl-token" then total
      else
        let source := (i.infoSource).getD ""
        let destination := (i.infoDestination).getD ""
        let mint := (i.infoMint).getD ""
        let authority := (i.infoAuthority).getD ""
        if source = "" ∨ destination = "" ∨ mint = "" then total
        else
          let walletMatch := source = walletAta ∨ authority = walletAddress
          let treasuryMatch := destination = treasuryAta ∨ destination = treasuryAddress
          if ¬walletMatch ∨ ¬treasuryMatch ∨ mint ≠ usdcMint then total
          else
            match i.infoAmount with
            | none => total
            | some a =>
              match a.toNat? with
              | some n => total + n
              | none => total)
    0

/-- `fetchOnchainCredits` (`src/unnamed/part_011`, lines 240-254): read
the decoded `UserCredit` balance for a wallet; modelled as the `chain`
component of the state. -/
def fetchOnchainCredits (st : St) (walletAddress : String) : Nat :=
  st.chain walletAddress

/-! ## The unlock endpoint as an atomic-step machine

`POST /api/jobs/:jobId/clips/:clipFile/unlock` (`src/unnamed/part_011`,
lines 655-827).  After the gates and manifest validation (which read no
mutable unlock state) the handler is a sequence of store/chain round
trips; each await point is one atomic step of the machine below, so that
interleavings of concurrent requests can be quantified over.  The
program counter names follow the source order:

* `readChain1` / `readSpent` — lines 689-691 (`totalCredits`,
  `spentCredits`; `availableCredits` is computed and never used);
* `getPending` .. `recSetIdem` — lines 692-720 (crash-recovery branch);
* `checkEnt` / `fastSetIdem` — lines 722-738 (already-unlocked fast path);
* `getIdem` — lines 740-746; `setIdemNX` / `reGetIdem` — lines 747-756;
* `readChain2` / `insufSetIdem` — lines 758-768 (funding check);
* `consume` / `failReadChain` / `failSetIdem` — lines 770-786;
* `setPendingPc` .. `finalSetIdem` — lines 788-821.
-/

/-- Program counter of an in-flight unlock request. -/
inductive UPc
  | readChain1
  | readSpent
  | getPending
  | recSetEnt
  | recDelPending
  | recSetIdem
  | checkEnt
  | fastSetIdem
  | getIdem
  | setIdemNX
  | reGetIdem
  | readChain2
  | insufSetIdem
  | consume
  | failReadChain
  | failSetIdem (refreshed : Nat)
  | setPendingPc
  | setEntPc
  | delPendingPc
  | finalSetIdem
deriving DecidableEq, Repr

/-- HTTP outcome of the unlock endpoint's core.  `ok body` is a 200
response whose JSON body is the (idempotency-shaped) record — note the
source serves the raw stored record on replay paths, which can be the
`{status:"pending"}` marker.  `payment` is 402, `conflict` 409,
`upstream` 502. -/
inductive UResp
  | ok (body : IdemRecord)
  | conflict
  | payment
  | upstream
deriving DecidableEq, Repr

/-- One unlock request: either still running at a program counter, or
completed with a response. -/
inductive UThread
  | run (pc : UPc)
  | done (r : UResp)
deriving DecidableEq, Repr

/-- Identifiers of one unlock request (route params, authenticated
wallet, body request id). -/
structure UParams where
  jobId : String
  clipFile : String
  wallet : String
  reqId : String
deriving DecidableEq, Repr

/-- One atomic step of the unlock handler.  Each case performs exactly
one store or chain round trip of the source, followed by the local
control flow up to the next round trip.

The `consume` case embeds `consumeOnchainCredit` — the one on-chain
`consume_credit` transaction.  Modelled from the spec: the on-chain
credits program is outside `src/` (spec §1 keeps only its instruction
encoding in scope), and per spec §4.4 and scenario S4 a confirmed
`consume_credit` of amount 1 debits one credit and fails (confirmation
`err`, hence the handler's catch) exactly when the balance is
insufficient. -/
def ustep (p : UParams) : UThread → St → UThread × St
  | .done r, st => (.done r, st)
  | .run pc, st =>
    match pc with
    | .readChain1 => (.run .readSpent, st)
    | .readSpent => (.run .getPending, st)
    | .getPending =>
      match JobStore.getUnlockPending st p.reqId with
      | some rec =>
        if rec.jobId = p.jobId ∧ rec.clipFile = p.clipFile then (.run .recSetEnt, st)
        else (.run .checkEnt, st)
      | none => (.run .checkEnt, st)
    | .recSetEnt => (.run .recDelPending, JobStore.setClipUnlocked st p.jobId p.clipFile)
    | .recDelPending => (.run .recSetIdem, JobStore.deleteUnlockPending st p.reqId)
    | .recSetIdem =>
      let body : IdemRecord := .fin p.jobId p.clipFile none true 0 .REPLAY
      (.done (.ok body), JobStore.setIdempotencyResult st p.reqId body)
    | .checkEnt =>
      if JobStore.isClipUnlocked st p.jobId p.clipFile then (.run .fastSetIdem, st)
      else (.run .getIdem, st)
    | .fastSetIdem =>
      let body : IdemRecord := .fin p.jobId p.clipFile none true 0 .REPLAY
      (.done (.ok body), JobStore.setIdempotencyResult st p.reqId body)
    | .getIdem =>
      match JobStore.getIdempotencyResult st p.reqId with
      | some .pend => (.done .conflict, st)
      | some r => (.done (.ok r), st)
      | none => (.run .setIdemNX, st)
    | .setIdemNX =>
      if (st.idem p.reqId).isSome then (.run .reGetIdem, (JobStore.setIdempotencyIfAbsent st p.reqId .pend).2)
      else (.run .readChain2, (JobStore.setIdempotencyIfAbsent st p.reqId .pend).2)
    | .reGetIdem =>
      match JobStore.getIdempotencyResult st p.reqId with
      | some r => (.done (.ok r), st)
      | none => (.done .conflict, st)
    | .readChain2 =>
      if fetchOnchainCredits st p.wallet < 1 then (.run .insufSetIdem, st)
      else (.run .consume, st)
    | .insufSetIdem =>
      let body : IdemRecord := .fin p.jobId p.clipFile none false 0 .NEW
      (.done .payment, JobStore.setIdempotencyResult st p.reqId body)
    | .consume =>
      if 1 ≤ st.chain p.wallet then
        (.run .setPendingPc,
          { st with chain := fun k => if k = p.wallet then st.chain k - 1 else st.chain k })
      else (.run .failReadChain, st)
    | .failReadChain => (.run (.failSetIdem (fetchOnchainCredits st p.wallet)), st)
    | .failSetIdem refreshed =>
      let body : IdemRecord := .fin p.jobId p.clipFile none false 0 .NEW
      ((.done (if refreshed < 1 then .payment else .upstream)),
        JobStore.setIdempotencyResult st p.reqId body)
    | .setPendingPc =>
      (.run .setEntPc,
        JobStore.setUnlockPending st p.reqId
          ⟨p.jobId, p.clipFile, p.wallet, "txSig"⟩)
    | .setEntPc => (.run .delPendingPc, JobStore.setClipUnlocked st p.jobId p.clipFile)
    | .delPendingPc => (.run .finalSetIdem, JobStore.deleteUnlockPending st p.reqId)
    | .finalSetIdem =>
      let body : IdemRecord := .fin p.jobId p.clipFile none true 1 .NEW
      (.done (.ok body), JobStore.setIdempotencyResult st p.reqId body)

/-- Run two concurrent unlock requests under a schedule: `true` steps the
first thread, `false` the second.  Scheduling a finished thread is a
no-op. -/
def runSched (p1 p2 : UParams) :
    List Bool → UThread × UThread → St → (UThread × UThread) × St
  | [], ts, st => (ts, st)
  | b :: rest, (t1, t2), st =>
    if b then
      let (t1', st') := ustep p1 t1 st
      runSched p1 p2 rest (t1', t2) st'
    else
      let (t2', st') := ustep p2 t2 st
      runSched p1 p2 rest (t1, t2') st'

/-- Run one unlock request alone to completion (fuel-bounded; the
longest path of the machine has 13 steps). -/
def runSolo (p : UParams) : Nat → UThread → St → UThread × St
  | 0, t, st => (t, st)
  | Nat.succ _, .done r, st => (.done r, st)
  | Nat.succ n, .run pc, st =>
    runSolo p n (ustep p (.run pc) st).1 (ustep p (.run pc) st).2

/-! ## Sequential HTTP handlers -/

/-- `Object.values(JOB_STATUS)` (`src/unnamed/part_011`, lines 1-6). -/
def jobStatusValues : List String := ["QUEUED", "RUNNING", "SUCCEEDED", "FAILED"]

/-- `Object.values(JOB_STAGE)` (`src/unnamed/part_011`, lines 10-18). -/
def jobStageValues : List String :=
  ["DOWNLOAD", "TRANSCRIPT", "CHUNK", "SELECT", "RENDER", "UPLOAD", "DONE"]

/-- Character class `[0-9A-HJKMNP-TV-Z]` of the job-id regex. -/
def isCrockfordUpper (c : Char) : Bool :=
  let n := c.toNat
  (48 ≤ n && n ≤ 57) || (65 ≤ n && n ≤ 72) || n = 74 || n = 75 || n = 77 || n = 78 ||
    (80 ≤ n && n ≤ 84) || (86 ≤ n && n ≤ 90)

/-- `isValidJobId` — `/^kk_[0-9A-HJKMNP-TV-Z]{26}$/` (`src/unnamed/part_011`,
lines 36-38). -/
def isValidJobId (s : String) : Bool :=
  match s.toList with
  | 'k' :: 'k' :: '_' :: rest => rest.length = 26 && rest.all isCrockfordUpper
  | _ => false

/-- HTTP response of the unlock endpoint, with its status class and the
source's `detail` strings. -/
inductive UnlockHttp
  | ok (body : IdemRecord)
  | badRequest (detail : String)
  | unauthorized (detail : String)
  | notFound (detail : String)
  | conflictH (detail : String)
  | paymentH (detail : String)
  | upstreamH (detail : String)
  | internalH (detail : String)
deriving DecidableEq, Repr

/-- Map a core unlock outcome to the HTTP response of the source. -/
def toHttp : UResp → UnlockHttp
  | .ok b => .ok b
  | .conflict => .conflictH "unlock in progress"
  | .payment => .paymentH "insufficient_credits"
  | .upstream => .upstreamH "consume_credit_failed"

/-- The full `POST /api/jobs/:jobId/clips/:clipFile/unlock` handler
(`src/unnamed/part_011`, lines 655-827), including the `requireJobToken`
and `requireAuthToken` middlewares (lines 124-158), run sequentially
(the machine is driven solo to completion).  Header values are `Option`
(absent header = `none`); JavaScript truthiness makes the empty string
count as absent. -/
def unlockHandler (env : Env) (jobId clipFile : String)
    (jobTok authTok reqIdOpt : Option String) (st : St) : UnlockHttp × St :=
  match JobStore.get st jobId with
  | none => (.notFound "job not found", st)
  | some data =>
    match jobTok with
    | none => (.unauthorized "invalid job token", st)
    | some tok =>
      if tok = "" ∨ tok ≠ data.job_token then (.unauthorized "invalid job token", st)
      else
        match authTok with
        | none => (.unauthorized "auth token required", st)
        | some atok =>
          if atok = "" then (.unauthorized "auth token required", st)
          else
            match JobStore.getAuthTokenWallet st atok with
            | none => (.unauthorized "invalid auth token", st)
            | some wallet =>
              if wallet = "" then (.unauthorized "invalid auth token", st)
              else if data.status ≠ "SUCCEEDED" then (.conflictH "job not completed", st)
              else
                match reqIdOpt with
                | none => (.badRequest "unlock_request_id is required", st)
                | some reqId =>
                  if reqId = "" then (.badRequest "unlock_request_id is required", st)
                  else if ¬ env.validKey wallet then (.unauthorized "invalid auth token", st)
                  else
                    match data.r2Dir with
                    | none => (.internalH "missing r2 prefix", st)
                    | some r2 =>
                      if r2 = "" then (.internalH "missing r2 prefix", st)
                      else
                        match env.manifest r2 with
                        | none => (.upstreamH "manifest load failed", st)
                        | some clips =>
                          if ¬ clips.contains clipFile then (.notFound "clip not found", st)
                          else
                            match runSolo ⟨jobId, clipFile, wallet, reqId⟩ 20
                                (.run .readChain1) st with
                            | (.done r, st') => (toHttp r, st')
                            | (.run _, st') => (.upstreamH "incomplete", st')

/-- Callback request body (`CallbackRequest` plus the `stage` and
`progress` fields read by the handler).  String fields use `Option`
(`none` = absent). -/
structure CbBody where
  job_id : String
  statusB : String
  stage : Option String := none
  progress : Option Int := none
  r2 : Option String := none
  errB : Option String := none
deriving DecidableEq, Repr

/-- HTTP response of `POST /api/callback/nosana`. -/
inductive CbResp
  | okR
  | badRequestR (detail : String)
  | unauthorizedR (detail : String)
  | notFoundR (detail : String)
deriving DecidableEq, Repr

/-- The record merge performed by the callback handler (the `updates`
object of lines 846-864 spread over the current record by
`store.update`): replace `status` unconditionally; set `r2_prefix` and
`error` when truthy; set `stage` when present and valid, else force
`DONE` for a terminal status; clamp `progress` to [0,100] when numeric,
else force 100 for a terminal status. -/
def applyCallback (data : JobRecord) (body : CbBody) : JobRecord :=
  let terminal := body.statusB = "SUCCEEDED" ∨ body.statusB = "FAILED"
  let d1 := { data with status := body.statusB }
  let d2 :=
    match body.r2 with
    | some s => if s ≠ "" then { d1 with r2Dir := some s } else d1
    | none => d1
  let d3 :=
    match body.errB with
    | some s => if s ≠ "" then { d2 with error := some s } else d2
    | none => d2
  let stageOk : Bool :=
    match body.stage with
    | some sg => sg != "" && jobStageValues.contains sg
    | none => false
  let d4 :=
    if stageOk then { d3 with stage := body.stage }
    else if terminal then { d3 with stage := some "DONE" } else d3
  match body.progress with
  | some pr => { d4 with progress := some (min 100 (max 0 pr)) }
  | none => if terminal then { d4 with progress := some 100 } else d4

/-- `POST /api/callback/nosana` (`src/unnamed/part_011`, lines 830-867):
check the shared-secret header, validate the job id and the status
value, and merge `{status, r2_prefix?, error?, stage?, progress?}` into
the job record.  The status is replaced unconditionally — the handler
performs no comparison with the job's current status. -/
def callbackHandler (env : Env) (tokenHdr : Option String) (body : CbBody)
    (st : St) : CbResp × St :=
  if tokenHdr ≠ some env.callbackToken then (.unauthorizedR "invalid callback token", st)
  else if body.job_id = "" ∨ ¬ isValidJobId body.job_id then
    (.badRequestR "invalid job id", st)
  else if ¬ jobStatusValues.contains body.statusB then (.badRequestR "invalid status", st)
  else
    match JobStore.get st body.job_id with
    | none => (.notFoundR "job not found", st)
    | some data => (.okR, JobStore.set st body.job_id (applyCallback data body))

/-- HTTP response of `GET /api/jobs/:jobId` (fields relevant here). -/
inductive GetJobResp
  | okJ (status : String) (stage : Option String) (progress : Option Int)
  | notFoundJ
deriving DecidableEq, Repr

/-- `GET /api/jobs/:jobId` (`src/unnamed/part_011`, lines 379-394). -/
def getJobHandler (jobId : String) (st : St) : GetJobResp :=
  match JobStore.get st jobId with
  | none => .notFoundJ
  | some data => .okJ data.status data.stage data.progress

/-- HTTP response of `POST /api/auth/challenge`. -/
inductive ChalResp
  | okC (wallet challenge nonce : String) (expires_in : Nat)
  | badRequestC (detail : String)
deriving DecidableEq, Repr

/-- `POST /api/auth/challenge` (`src/unnamed/part_011`, lines 397-421).
The 32-byte random nonce and the ISO timestamp are injected as
arguments. -/
def challengeHandler (env : Env) (walletAddress : Option String)
    (nonce timestamp : String) (st : St) : ChalResp × St :=
  match walletAddress with
  | none => (.badRequestC "wallet_address is required", st)
  | some w =>
    if w = "" ∨ ¬ env.validKey w then (.badRequestC "wallet_address is required", st)
    else
      let challenge := "KANGKLIP_AUTH:" ++ w ++ ":" ++ nonce ++ ":" ++ timestamp
      let st' := JobStore.setAuthNonce st nonce ⟨w, challenge, env.nowMs + 300 * 1000⟩
      (.okC w challenge nonce 300, st')

/-- HTTP response of `POST /api/auth/verify`. -/
inductive VerifyResp
  | okV (auth_token : String) (expires_in : Nat)
  | badRequestV (detail : String)
  | unauthorizedV (detail : String)
deriving DecidableEq, Repr

/-- `POST /api/auth/verify` (`src/unnamed/part_011`, lines 424-460): read
the nonce payload; 400 if absent, malformed, bound to a different
wallet, or expired (expired deletes the nonce); 401 if the Ed25519
signature of the challenge does not verify against the wallet key; on
success mint a token (randomness injected as `newToken`), bind it to the
wallet, delete the nonce. -/
def verifyHandler (env : Env) (walletAddress nonce signature : Option String)
    (newToken : String) (st : St) : VerifyResp × St :=
  match walletAddress with
  | none => (.badRequestV "wallet_address is required", st)
  | some w =>
    if w = "" ∨ ¬ env.validKey w then (.badRequestV "wallet_address is required", st)
    else
      match nonce with
      | none => (.badRequestV "nonce is required", st)
      | some n =>
        if n = "" then (.badRequestV "nonce is required", st)
        else
          match signature with
          | none => (.badRequestV "signature is required", st)
          | some s =>
            if s = "" then (.badRequestV "signature is required", st)
            else
              match JobStore.getAuthNonce st n with
              | none => (.badRequestV "invalid nonce", st)
              | some payload =>
                if payload.wallet = "" ∨ payload.wallet ≠ w ∨ payload.challenge = "" then
                  (.badRequestV "invalid nonce", st)
                else if payload.expiresAt ≠ 0 ∧ env.nowMs > payload.expiresAt then
                  (.badRequestV "nonce expired", JobStore.deleteAuthNonce st n)
                else if ¬ env.edVerify w payload.challenge s then
                  (.unauthorizedV "invalid signature", st)
                else
                  let st1 := JobStore.setAuthToken st newToken w
                  let st2 := JobStore.deleteAuthNonce st1 n
                  (.okV newToken 86400, st2)

/-- Strip trailing slashes — `r2Prefix.replace(/\/+$/, "")`. -/
def dropTrailingSlashes (s : String) : String :=
  String.mk (s.toList.reverse.dropWhile (fun c => c = '/')).reverse

/-- Result of `resolveClipKey`. -/
inductive ResolveRes
  | key (k : String)
  | errR (status : Nat) (detail : String)
deriving DecidableEq, Repr

/-- `resolveClipKey` (`src/unnamed/part_011`, lines 212-237): require a
Succeeded job with an `r2_prefix`, load the manifest, require the clip
file to be listed, and build the object key. -/
def resolveClipKey (env : Env) (clipFile : String) (data : JobRecord) : ResolveRes :=
  if data.status ≠ "SUCCEEDED" then .errR 409 "job not completed"
  else
    match data.r2Dir with
    | none => .errR 500 "missing r2 prefix"
    | some r2 =>
      if r2 = "" then .errR 500 "missing r2 prefix"
      else
        match env.manifest r2 with
        | none => .errR 502 "manifest load failed"
        | some clips =>
          if ¬ clips.contains clipFile then .errR 404 "clip not found"
          else .key (dropTrailingSlashes r2 ++ "/" ++ clipFile)

/-- HTTP response of the preview/download endpoints.  `lockedR` is the
403 body `{"error":"locked"}`; `errC` carries the status and `detail` of
the other error responses. -/
inductive ClipResp
  | okU (url : String) (expires_in : Nat)
  | lockedR
  | errC (status : Nat) (detail : String)
deriving DecidableEq, Repr

/-- `GET /api/jobs/:jobId/clips/:clipFile/download` (`src/unnamed/part_011`,
lines 599-626): job-token gate, clip resolution, then the unlock check:
locked clips get 403 `{"error":"locked"}`, unlocked ones a signed URL
with `expires_in` 86400. -/
def downloadHandler (env : Env) (jobId clipFile : String) (jobTok : Option String)
    (st : St) : ClipResp × St :=
  match JobStore.get st jobId with
  | none => (.errC 404 "job not found", st)
  | some data =>
    match jobTok with
    | none => (.errC 401 "invalid job token", st)
    | some tok =>
      if tok = "" ∨ tok ≠ data.job_token then (.errC 401 "invalid job token", st)
      else
        match resolveClipKey env clipFile data with
        | .errR s d => (.errC s d, st)
        | .key k =>
          if ¬ JobStore.isClipUnlocked st jobId clipFile then (.lockedR, st)
          else (.okU (env.signUrl k 86400) 86400, st)

/-- `GET /api/jobs/:jobId/clips/:clipFile/preview` (`src/unnamed/part_011`,
lines 629-652): same gates and clip resolution, then a signed URL with
`expires_in` 600 — no unlock check. -/
def previewHandler (env : Env) (jobId clipFile : String) (jobTok : Option String)
    (st : St) : ClipResp × St :=
  match JobStore.get st jobId with
  | none => (.errC 404 "job not found", st)
  | some data =>
    match jobTok with
    | none => (.errC 401 "invalid job token", st)
    | some tok =>
      if tok = "" ∨ tok ≠ data.job_token then (.errC 401 "invalid job token", st)
      else
        match resolveClipKey env clipFile data with
        | .errR s d => (.errC s d, st)
        | .key k => (.okU (env.signUrl k 600) 600, st)

/-! ## SHA-256, base64 and the Anchor instruction encoding

`crypto.createHash("sha256")` is implemented here (FIPS 180-4) so that
the instruction-data claims are about the actual discriminator bytes. -/

/-- Truncate to 32 bits. -/
def w32 (x : Nat) : Nat := x % 4294967296

/-- 32-bit rotate right (input assumed < 2³²). -/
def rotr32 (x n : Nat) : Nat := w32 ((x >>> n) ||| (x <<< (32 - n)))

/-- SHA-256 round constants. -/
def sha256K : List Nat :=
  [1116352408, 1899447441, 3049323471, 3921009573, 961987163,
   1508970993, 2453635748, 2870763221, 3624381080, 310598401,
   607225278, 1426881987, 1925078388, 2162078206, 2614888103,
   3248222580, 3835390401, 4022224774, 264347078, 604807628,
   770255983, 1249150122, 1555081692, 1996064986, 2554220882,
   2821834349, 2952996808, 3210313671, 3336571891, 3584528711,
   113926993, 338241895, 666307205, 773529912, 1294757372,
   1396182291, 1695183700, 1986661051, 2177026350, 2456956037,
   2730485921, 2820302411, 3259730800, 3345764771, 3516065817,
   3600352804, 4094571909, 275423344, 430227734, 506948616,
   659060556, 883997877, 958139571, 1322822218, 1537002063,
   1747873779, 1955562222, 2024104815, 2227730452, 2361852424,
   2428436474, 2756734187, 3204031479, 3329325298]

/-- SHA-256 initial hash state. -/
def sha256H0 : List Nat :=
  [1779033703, 3144134277, 1013904242,
   2773480762, 1359893119, 2600822924,
   528734635, 1541459225]

/-- Big-endian byte encoding of `n` on `count` bytes. -/
def beBytes (n count : Nat) : List Nat :=
  (List.range count).reverse.map fun i => (n >>> (8 * i)) % 256

/-- Group bytes into 32-bit big-endian words. -/
def toWordsBE : List Nat → List Nat
  | a :: b :: c :: d :: rest => ((a <<< 24) ||| (b <<< 16) ||| (c <<< 8) ||| d) :: toWordsBE rest
  | _ => []

/-- σ₀ message-schedule function. -/
def smallSigma0 (x : Nat) : Nat := rotr32 x 7 ^^^ rotr32 x 18 ^^^ (x >>> 3)

/-- σ₁ message-schedule function. -/
def smallSigma1 (x : Nat) : Nat := rotr32 x 17 ^^^ rotr32 x 19 ^^^ (x >>> 10)

/-- Σ₀ compression function. -/
def bigSigma0 (x : Nat) : Nat := rotr32 x 2 ^^^ rotr32 x 13 ^^^ rotr32 x 22

/-- Σ₁ compression function. -/
def bigSigma1 (x : Nat) : Nat := rotr32 x 6 ^^^ rotr32 x 11 ^^^ rotr32 x 25

/-- One message-schedule extension step. -/
def extendStep (w : List Nat) : List Nat :=
  w ++ [w32 (smallSigma1 (w.getD (w.length - 2) 0) + w.getD (w.length - 7) 0 +
             smallSigma0 (w.getD (w.length - 15) 0) + w.getD (w.length - 16) 0)]

/-- One SHA-256 round on the state `[a,b,c,d,e,f,g,h]`. -/
def sha256Round (s : List Nat) (k w : Nat) : List Nat :=
  match s with
  | [a, b, c, d, e, f, g, h] =>
    let ch := (e &&& f) ^^^ ((0xffffffff ^^^ e) &&& g)
    let t1 := w32 (h + bigSigma1 e + ch + k + w)
    let maj := (a &&& b) ^^^ (a &&& c) ^^^ (b &&& c)
    let t2 := w32 (bigSigma0 a + maj)
    [w32 (t1 + t2), a, b, c, w32 (d + t1), e, f, g]
  | other => other

/-- Compress one 64-byte block into the hash state. -/
def sha256Block (hs : List Nat) (block : List Nat) : List Nat :=
  let w := extendStep^[48] (toWordsBE block)
  let s := (sha256K.zip w).foldl (fun s kw => sha256Round s kw.1 kw.2) hs
  (hs.zip s).map fun p => w32 (p.1 + p.2)

/-- Split a byte list into 64-byte blocks (fuel-based structural
recursion so the kernel can evaluate it; the fuel bound is ample since
every iteration consumes 64 bytes). -/
def chunks64Aux : Nat → List Nat → List (List Nat)
  | 0, _ => []
  | _, [] => []
  | fuel + 1, l => l.take 64 :: chunks64Aux fuel (l.drop 64)

/-- Split a byte list into 64-byte blocks. -/
def chunks64 (l : List Nat) : List (List Nat) := chunks64Aux (l.length + 1) l

/-- SHA-256 of a byte list. -/
def sha256 (msg : List Nat) : List Nat :=
  let bitLen := 8 * msg.length
  let padZeros := (64 + 56 - ((msg.length + 1) % 64)) % 64
  let padded := msg ++ [0x80] ++ List.replicate padZeros 0 ++ beBytes bitLen 8
  ((chunks64 padded).foldl sha256Block sha256H0).flatMap fun hWord => beBytes hWord 4

/-- ASCII bytes of a string (the handlers hash ASCII constants only, for
which UTF-8 bytes and code points agree). -/
def strBytes (s : String) : List Nat := s.toList.map Char.toNat

/-- `anchorDiscriminator` (`src/unnamed/part_010`, `credits_client.ts`
lines 105-107): first 8 bytes of `sha256(name)`. -/
def anchorDiscriminator (name : String) : List Nat := (sha256 (strBytes name)).take 8

/-- Little-endian u64 bytes (`Buffer.writeBigUInt64LE`); the source
throws for values ≥ 2⁶⁴, so callers are considered for amounts < 2⁶⁴. -/
def u64le (n : Nat) : List Nat := (List.range 8).map fun i => (n >>> (8 * i)) % 256

/-- `buildPayUsdcInstructionData` (`credits_client.ts` lines 137-142):
discriminator of `"global:pay_usdc"` followed by the little-endian
amount. -/
def buildPayUsdcInstructionData (amountBaseUnits : Nat) : List Nat :=
  anchorDiscriminator "global:pay_usdc" ++ u64le amountBaseUnits

/-- `buildConsumeCreditInstructionData` (`credits_client.ts` lines 145-150). -/
def buildConsumeCreditInstructionData (amount : Nat) : List Nat :=
  anchorDiscriminator "global:consume_credit" ++ u64le amount

/-- The base64 alphabet. -/
def b64Chars : List Char :=
  "ABCDEFGHIJKLMNOPQRSTUVWXYZabcdefghijklmnopqrstuvwxyz0123456789+/".toList

/-- Character of the base64 alphabet at a 6-bit index. -/
def b64Char (i : Nat) : Char := b64Chars.getD i 'A'

/-- Standard base64 encoding of a byte list (`Buffer.toString("base64")`). -/
def base64Encode : List Nat → String
  | a :: b :: c :: rest =>
    String.mk [b64Char (a >>> 2), b64Char (((a &&& 3) <<< 4) ||| (b >>> 4)),
               b64Char (((b &&& 15) <<< 2) ||| (c >>> 6)), b64Char (c &&& 63)] ++
      base64Encode rest
  | [a, b] =>
    String.mk [b64Char (a >>> 2), b64Char (((a &&& 3) <<< 4) ||| (b >>> 4)),
               b64Char ((b &&& 15) <<< 2), '=']
  | [a] => String.mk [b64Char (a >>> 2), b64Char ((a &&& 3) <<< 4), '=', '=']
  | [] => ""

/-- `CREDIT_UNIT` (`credits_client.ts` line 97). -/
def CREDIT_UNIT : Nat := 100000

/-! ## Credits endpoints -/

/-- Result of the `requireAuthToken` middleware (`src/unnamed/part_011`,
lines 143-158): a bound wallet, or a 401 `detail`. -/
inductive GateRes
  | okG (wallet : String)
  | failG (detail : String)
deriving DecidableEq, Repr

/-- The `requireAuthToken` middleware. -/
def requireAuthToken (st : St) (authTok : Option String) : GateRes :=
  match authTok with
  | none => .failG "auth token required"
  | some t =>
    if t = "" then .failG "auth token required"
    else
      match JobStore.getAuthTokenWallet st t with
      | none => .failG "invalid auth token"
      | some w => if w = "" then .failG "invalid auth token" else .okG w

/-- Response of `POST /api/credits/topup/usdc/intent`. -/
structure IntentResp where
  wallet_address : String
  credits_to_buy : Int
  amount_base_units : Int
  credit_unit : Nat
  program_id : String
  config_pda : String
  user_credit_pda : String
  vault_ata : String
  user_usdc_ata : String
  usdc_mint : String
  instruction_data : String
deriving DecidableEq, Repr

/-- HTTP response of the intent endpoint. -/
inductive IntentHttp
  | okI (r : IntentResp)
  | badRequestI (detail : String)
  | unauthorizedI (detail : String)
deriving DecidableEq, Repr

/-- `POST /api/credits/topup/usdc/intent` (`src/unnamed/part_011`, lines
884-917): auth gate, require a positive integer `credits_to_buy`
(a non-numeric body is `none` here), compute
`amountBaseUnits = credits * CREDIT_UNIT`, derive the PDAs and ATAs, and
return the base64 `pay_usdc` instruction data. -/
def intentHandler (env : Env) (authTok : Option String) (creditsToBuy : Option Int)
    (st : St) : IntentHttp × St :=
  match requireAuthToken st authTok with
  | .failG d => (.unauthorizedI d, st)
  | .okG wallet =>
    if ¬ env.validKey wallet then (.unauthorizedI "invalid auth token", st)
    else
      match creditsToBuy with
      | none => (.badRequestI "credits_to_buy must be a positive integer", st)
      | some credits =>
        if credits ≤ 0 then (.badRequestI "credits_to_buy must be a positive integer", st)
        else
          let amountBaseUnits : Int := credits * (CREDIT_UNIT : Int)
          (.okI
            { wallet_address := wallet
              credits_to_buy := credits
              amount_base_units := amountBaseUnits
              credit_unit := CREDIT_UNIT
              program_id := env.creditsProgramId
              config_pda := env.configPda
              user_credit_pda := env.userCreditPda wallet
              vault_ata := env.ata env.configPda env.usdcMint
              user_usdc_ata := env.ata wallet env.usdcMint
              usdc_mint := env.usdcMint
              instruction_data := base64Encode (buildPayUsdcInstructionData amountBaseUnits.toNat) },
            st)

/-- HTTP response of the confirm endpoint. -/
inductive ConfirmHttp
  | okT (newBalance : Nat)
  | badRequestT (detail : String)
  | unauthorizedT (detail : String)
  | notFoundT (detail : String)
deriving DecidableEq, Repr

/-- `POST /api/credits/topup/usdc/confirm` (`src/unnamed/part_011`, lines
920-951): auth gate; if the signature is already marked, answer with the
current balance; otherwise fetch the parsed transaction, refuse a set
`meta.err` or a transaction that did not invoke the credits program,
mark the signature (set-once) and answer with the current balance. -/
def confirmHandler (env : Env) (authTok sigOpt : Option String) (st : St) :
    ConfirmHttp × St :=
  match requireAuthToken st authTok with
  | .failG d => (.unauthorizedT d, st)
  | .okG wallet =>
    if ¬ env.validKey wallet then (.unauthorizedT "invalid auth token", st)
    else
      match sigOpt with
      | none => (.badRequestT "signature is required", st)
      | some sig =>
        if sig = "" then (.badRequestT "signature is required", st)
        else if JobStore.hasTopupSignature st sig then
          (.okT (fetchOnchainCredits st wallet), st)
        else
          match env.parsedTx sig with
          | none => (.notFoundT "transaction not found", st)
          | some tx =>
            if tx.err then (.badRequestT "transaction failed", st)
            else if ¬ hasProgramInstruction tx env.creditsProgramId then
              (.badRequestT "invalid program", st)
            else
              let res := JobStore.markTopupSignature st sig
              if res.1 then (.okT (fetchOnchainCredits res.2 wallet), res.2)
              else (.okT (fetchOnchainCredits res.2 wallet), res.2)

/-- HTTP response of `GET /api/credits/balance`. -/
inductive BalResp
  | okB (credits : Nat)
  | unauthorizedB (detail : String)
  | forbiddenB (detail : String)
deriving DecidableEq, Repr

/-- `GET /api/credits/balance` (`src/unnamed/part_011`, lines 870-881). -/
def balanceHandler (env : Env) (authTok walletQuery : Option String) (st : St) :
    BalResp × St :=
  match requireAuthToken st authTok with
  | .failG d => (.unauthorizedB d, st)
  | .okG wallet =>
    if ¬ env.validKey wallet then (.unauthorizedB "invalid auth token", st)
    else
      match walletQuery with
      | some q =>
        if q ≠ "" ∧ q ≠ wallet then (.forbiddenB "wallet mismatch", st)
        else (.okB (fetchOnchainCredits st wallet), st)
      | none => (.okB (fetchOnchainCredits st wallet), st)

/-! ## All store-mutating HTTP operations, as one action type -/

/-- One invocation of any of the embedded HTTP handlers, with its
request data. -/
inductive Op
  | unlockOp (env : Env) (jobId clipFile : String) (jobTok authTok reqIdOpt : Option String)
  | callbackOp (env : Env) (tokenHdr : Option String) (body : CbBody)
  | challengeOp (env : Env) (walletAddress : Option String) (nonce timestamp : String)
  | verifyOp (env : Env) (walletAddress nonce signature : Option String) (newToken : String)
  | downloadOp (env : Env) (jobId clipFile : String) (jobTok : Option String)
  | previewOp (env : Env) (jobId clipFile : String) (jobTok : Option String)
  | intentOp (env : Env) (authTok : Option String) (creditsToBuy : Option Int)
  | confirmOp (env : Env) (authTok sigOpt : Option String)
  | balanceOp (env : Env) (authTok walletQuery : Option String)

/-- The state transition of one handler invocation. -/
def applyOp (st : St) : Op → St
  | .unlockOp env jobId clipFile jT aT rI => (unlockHandler env jobId clipFile jT aT rI st).2
  | .callbackOp env tH body => (callbackHandler env tH body st).2
  | .challengeOp env w n ts => (challengeHandler env w n ts st).2
  | .verifyOp env w n s tok => (verifyHandler env w n s tok st).2
  | .downloadOp env j c tok => (downloadHandler env j c tok st).2
  | .previewOp env j c tok => (previewHandler env j c tok st).2
  | .intentOp env tok c => (intentHandler env tok c st).2
  | .confirmOp env tok s => (confirmHandler env tok s st).2
  | .balanceOp env tok q => (balanceHandler env tok q st).2

/-! ## Helper lemmas -/

/-- A machine step never writes the `spent:` counter. -/
theorem ustep_spent (p : UParams) (t : UThread) (st : St) :
    ((ustep p t st).2).spent = st.spent := by
  rcases t with pc | r
  · cases pc <;>
      simp only [ustep, JobStore.getUnlockPending, JobStore.setClipUnlocked,
        JobStore.deleteUnlockPending, JobStore.setIdempotencyResult,
        JobStore.isClipUnlocked, JobStore.getIdempotencyResult,
        JobStore.setIdempotencyIfAbsent, JobStore.setUnlockPending,
        fetchOnchainCredits] <;>
      (repeat' split) <;> rfl
  · rfl

/-- A machine step neither reads nor writes the `spent:` counter: the
step function commutes with replacing the counter map.  (The source
reads `spentCredits` once, into the unused `availableCredits`.) -/
theorem ustep_spent_indep (p : UParams) (t : UThread) (st : St) (f : String → Nat) :
    ustep p t { st with spent := f } =
      ((ustep p t st).1, { (ustep p t st).2 with spent := f }) := by
  rcases t with pc | r
  · cases pc <;>
      simp only [ustep, JobStore.getUnlockPending, JobStore.setClipUnlocked,
        JobStore.deleteUnlockPending, JobStore.setIdempotencyResult,
        JobStore.isClipUnlocked, JobStore.getIdempotencyResult,
        JobStore.setIdempotencyIfAbsent, JobStore.setUnlockPending,
        fetchOnchainCredits] <;>
      (repeat' split) <;> simp_all
  · rfl

/-- Running the machine solo never writes the `spent:` counter. -/
theorem runSolo_spent (p : UParams) (fuel : Nat) (t : UThread) (st : St) :
    ((runSolo p fuel t st).2).spent = st.spent := by
  induction fuel generalizing t st with
  | zero => rfl
  | succ n ih =>
    rcases t with pc | r
    · rw [runSolo, ih]
      exact ustep_spent p (.run pc) st
    · rfl

/-- The machine run commutes with replacing the `spent:` counter map. -/
theorem runSolo_spent_indep (p : UParams) (fuel : Nat) (t : UThread) (st : St)
    (f : String → Nat) :
    runSolo p fuel t { st with spent := f } =
      ((runSolo p fuel t st).1, { (runSolo p fuel t st).2 with spent := f }) := by
  induction fuel generalizing t st with
  | zero => rfl
  | succ n ih =>
    rcases t with pc | r
    · rw [runSolo, ustep_spent_indep]
      dsimp only
      rw [ih, runSolo]
    · rfl

/-- The unlock endpoint never writes the `spent:` counter. -/
theorem unlockHandler_spent (env : Env) (jobId clipFile : String)
    (jT aT rI : Option String) (st : St) :
    ((unlockHandler env jobId clipFile jT aT rI st).2).spent = st.spent := by
  unfold unlockHandler
  repeat' split
  any_goals rfl
  all_goals
    rename_i heq
  all_goals
    have h2 := congrArg (fun q => q.2.spent) heq
  all_goals
    simp only [runSolo_spent] at h2
  all_goals
    exact h2.symm

/-- The unlock endpoint neither reads nor uses the `spent:` counter: its
response and its full state transition commute with replacing the
counter map. -/
theorem unlockHandler_spent_indep (env : Env) (jobId clipFile : String)
    (jT aT rI : Option String) (st : St) (f : String → Nat) :
    unlockHandler env jobId clipFile jT aT rI { st with spent := f } =
      ((unlockHandler env jobId clipFile jT aT rI st).1,
       { (unlockHandler env jobId clipFile jT aT rI st).2 with spent := f }) := by
  unfold unlockHandler
  simp only [JobStore.get, JobStore.getAuthTokenWallet]
  repeat' split
  all_goals simp_all [runSolo_spent_indep]

/-- The callback endpoint never writes the `spent:` counter. -/
theorem callbackHandler_spent (env : Env) (tH : Option String) (body : CbBody) (st : St) :
    ((callbackHandler env tH body st).2).spent = st.spent := by
  unfold callbackHandler
  (repeat' split) <;> rfl

/-- The challenge endpoint never writes the `spent:` counter. -/
theorem challengeHandler_spent (env : Env) (w : Option String) (n ts : String) (st : St) :
    ((challengeHandler env w n ts st).2).spent = st.spent := by
  unfold challengeHandler
  (repeat' split) <;> rfl

/-- The verify endpoint never writes the `spent:` counter. -/
theorem verifyHandler_spent (env : Env) (w n s : Option String) (tok : String) (st : St) :
    ((verifyHandler env w n s tok st).2).spent = st.spent := by
  unfold verifyHandler
  (repeat' split) <;> rfl

/-- The download endpoint never writes the `spent:` counter. -/
theorem downloadHandler_spent (env : Env) (j c : String) (tok : Option String) (st : St) :
    ((downloadHandler env j c tok st).2).spent = st.spent := by
  unfold downloadHandler
  (repeat' split) <;> rfl

/-- The preview endpoint never writes the `spent:` counter. -/
theorem previewHandler_spent (env : Env) (j c : String) (tok : Option String) (st : St) :
    ((previewHandler env j c tok st).2).spent = st.spent := by
  unfold previewHandler
  (repeat' split) <;> rfl

/-- The intent endpoint never writes the `spent:` counter. -/
theorem intentHandler_spent (env : Env) (tok : Option String) (cr : Option Int) (st : St) :
    ((intentHandler env tok cr st).2).spent = st.spent := by
  unfold intentHandler
  (repeat' split) <;> rfl

/-- The confirm endpoint never writes the `spent:` counter. -/
theorem confirmHandler_spent (env : Env) (tok s : Option String) (st : St) :
    ((confirmHandler env tok s st).2).spent = st.spent := by
  unfold confirmHandler JobStore.markTopupSignature
  (repeat' split) <;> rfl

/-- The balance endpoint never writes the `spent:` counter. -/
theorem balanceHandler_spent (env : Env) (tok q : Option String) (st : St) :
    ((balanceHandler env tok q st).2).spent = st.spent := by
  unfold balanceHandler
  (repeat' split) <;> rfl

/-- Any single handler invocation preserves the `spent:` counter. -/
theorem applyOp_spent (st : St) (op : Op) : (applyOp st op).spent = st.spent := by
  cases op with
  | unlockOp env j c jT aT rI => exact unlockHandler_spent env j c jT aT rI st
  | callbackOp env tH body => exact callbackHandler_spent env tH body st
  | challengeOp env w n ts => exact challengeHandler_spent env w n ts st
  | verifyOp env w n s tok => exact verifyHandler_spent env w n s tok st
  | downloadOp env j c tok => exact downloadHandler_spent env j c tok st
  | previewOp env j c tok => exact previewHandler_spent env j c tok st
  | intentOp env tok cr => exact intentHandler_spent env tok cr st
  | confirmOp env tok s => exact confirmHandler_spent env tok s st
  | balanceOp env tok q => exact balanceHandler_spent env tok q st

/-! ## Concrete fixtures for witnesses and counterexamples -/

/-- A syntactically valid job id (`kk_` + 26 Crockford-base32 chars). -/
def jidC : String := "kk_0123456789ABCDEFGHJKMNPQRS"

/-- A Succeeded job record with an `r2_prefix`. -/
def jobC : JobRecord := { job_token := "jt", status := "SUCCEEDED", r2Dir := some "jobs/j1" }

/-- A concrete environment: wallets `W1`/`W2` are valid keys, the
manifest under `jobs/j1` lists two clips, and the other collaborators
are simple deterministic functions. -/
def envC : Env :=
  { validKey := fun w => w == "W1" || w == "W2"
    edVerify := fun _ _ _ => false
    manifest := fun r => if r == "jobs/j1" then some ["c1.mp4", "c2.mp4"] else none
    signUrl := fun k _ => "https://signed/" ++ k
    parsedTx := fun _ => none
    configPda := "CFGPDA"
    userCreditPda := fun w => "UCPDA-" ++ w
    ata := fun o m => "ATA-" ++ o ++ "-" ++ m
    creditsProgramId := "CREDPROG"
    usdcMint := "MINT"
    treasury := "TREAS"
    callbackToken := "CBTOK"
    nowMs := 1000 }

/-- A concrete store state: one Succeeded job, auth token `at` bound to
wallet `W1`, on-chain balance 1 for `W1`, everything else empty. -/
def stC : St :=
  { jobs := fun k => if k == jidC then some jobC else none
    ent := fun _ _ => false
    spent := fun _ => 0
    idem := fun _ => none
    pendingU := fun _ => none
    authNonce := fun _ => none
    authToken := fun k => if k == "at" then some "W1" else none
    topupSig := fun _ => false
    chain := fun w => if w == "W1" then 1 else 0
    idemNewWrites := fun _ => 0 }

/-! ## Claim theorems -/

/-- C9: the per-wallet `spent:` counter is never incremented (or touched
at all) by any HTTP handler — across any sequence of handler invocations
it keeps its initial value — and the unlock endpoint's response and
state transition are independent of the counter's contents, so every
unlock funding decision depends only on the on-chain balance.  (The only
incrementing code is the Lua script of `JobStore.consumeCreditScript`,
which is invoked by no handler.) -/
theorem spent_counter_never_incremented :
    (∀ (st : St) (ops : List Op), (ops.foldl applyOp st).spent = st.spent)
    ∧ (∀ (env : Env) (jobId clipFile : String) (jT aT rI : Option String) (st : St)
        (f : String → Nat),
        unlockHandler env jobId clipFile jT aT rI { st with spent := f } =
          ((unlockHandler env jobId clipFile jT aT rI st).1,
           { (unlockHandler env jobId clipFile jT aT rI st).2 with spent := f })) := by
  constructor
  · intro st ops
    induction ops generalizing st with
    | nil => rfl
    | cons op rest ih => rw [List.foldl_cons, ih, applyOp_spent]
  · exact unlockHandler_spent_indep

/-- C3 (amended): the Lua script of `JobStore.consumeCredit` has exactly
the four-step semantics of §4.2: (1) an existing idempotency record is
returned tagged Replay without mutation; (2) an already-unlocked clip
yields a written-and-returned Replay payload with `charged_credits = 0`;
(3) insufficient available credits yield `INSUFFICIENT_CREDITS` with no
mutation; (4) otherwise the wallet's spend counter is incremented, the
clip is unlocked, and a NEW payload with `charged_credits = 1` is written
and returned. -/
theorem consumeCredit_four_step_semantics (st : St) (j c w id : String) (avail : Nat) :
    (∀ p, st.idem id = some p →
      JobStore.consumeCreditScript st j c w id avail = (.replay p, st))
    ∧ (st.idem id = none → st.ent j c = true →
      JobStore.consumeCreditScript st j c w id avail =
        (.replay (.fin j c none true 0 .REPLAY),
         JobStore.setIdempotencyResult st id (.fin j c none true 0 .REPLAY)))
    ∧ (st.idem id = none → st.ent j c = false → st.spent w + 1 > avail →
      JobStore.consumeCreditScript st j c w id avail = (.insufficient, st))
    ∧ (st.idem id = none → st.ent j c = false → st.spent w + 1 ≤ avail →
      JobStore.consumeCreditScript st j c w id avail =
        (.newRes (.fin j c (some w) true 1 .NEW),
         JobStore.setIdempotencyResult
           (JobStore.setClipUnlocked
             { st with spent := fun k => if k = w then st.spent k + 1 else st.spent k }
             j c)
           id (.fin j c (some w) true 1 .NEW))) := by
  refine ⟨?_, ?_, ?_, ?_⟩
  · intro p hp
    simp [JobStore.consumeCreditScript, hp]
  · intro h1 h2
    simp [JobStore.consumeCreditScript, h1, h2, JobStore.setIdempotencyIfAbsent]
  · intro h1 h2 h3
    simp [JobStore.consumeCreditScript, h1, h2, h3]
  · intro h1 h2 h3
    simp [JobStore.consumeCreditScript, h1, h2, Nat.not_lt.mpr h3,
      JobStore.setIdempotencyIfAbsent, JobStore.setClipUnlocked]

/-- Witness for `consumeCredit_four_step_semantics` at a concrete state
(fresh id, locked clip, one available credit): the charging branch
applies. -/
theorem consumeCredit_four_step_semantics_witness :
    stC.idem "R9" = none ∧ stC.ent jidC "c1.mp4" = false ∧ stC.spent "W1" + 1 ≤ 1 ∧
    JobStore.consumeCreditScript stC jidC "c1.mp4" "W1" "R9" 1 =
      (.newRes (.fin jidC "c1.mp4" (some "W1") true 1 .NEW),
       JobStore.setIdempotencyResult
         (JobStore.setClipUnlocked
           { stC with spent := fun k => if k = "W1" then stC.spent k + 1 else stC.spent k }
           jidC "c1.mp4")
         "R9" (.fin jidC "c1.mp4" (some "W1") true 1 .NEW)) :=
  ⟨rfl, rfl, by decide,
   (consumeCredit_four_step_semantics stC jidC "c1.mp4" "W1" "R9" 1).2.2.2
     rfl rfl (by decide)⟩

/-- Counterexample to C3's final conjunct ("this primitive is the one
used by the unlock path"): on a fresh state with balance 1 the unlock
endpoint completes a charging unlock yet leaves `spent:W1` at 0, while
the scripted primitive on the same state sets it to 1 — so the unlock
path does not execute the primitive. -/
theorem consumeCredit_unused_by_unlock_path :
    (unlockHandler envC jidC "c1.mp4" (some "jt") (some "at") (some "R1") stC).1 =
      .ok (.fin jidC "c1.mp4" none true 1 .NEW)
    ∧ ((unlockHandler envC jidC "c1.mp4" (some "jt") (some "at") (some "R1") stC).2).spent "W1" = 0
    ∧ ((JobStore.consumeCredit stC jidC "c1.mp4" "W1" "R1" 1).2).spent "W1" = 1 := by
  refine ⟨by decide, by decide, by decide⟩

/-- `resolveClipKey` resolves to the object key when the job Succeeded,
the `r2_prefix` is present, and the clip is listed in the manifest. -/
theorem resolveClipKey_key (env : Env) (clipFile : String) (data : JobRecord)
    (r2 : String) (clips : List String)
    (hst : data.status = "SUCCEEDED") (hr2 : data.r2Dir = some r2) (hr2ne : r2 ≠ "")
    (hman : env.manifest r2 = some clips) (hmem : clips.contains clipFile = true) :
    resolveClipKey env clipFile data =
      .key (dropTrailingSlashes r2 ++ "/" ++ clipFile) := by
  have hmem' : clipFile ∈ clips := by simpa using hmem
  simp [resolveClipKey, hst, hr2, hr2ne, hman, hmem']

/-- C6: for a Succeeded job with `r2_prefix` set and a manifest-listed
clip, the preview endpoint returns a signed URL with `expires_in = 600`
and performs no unlock check (its response is invariant under any change
of the `ClipUnlock` table), while the download endpoint returns a signed
URL with `expires_in = 86400` iff `ClipUnlock(jobId, clipFile)` holds,
and answers 403 `{"error":"locked"}` otherwise. -/
theorem preview_download_gating (env : Env) (jobId clipFile : String)
    (tok : Option String) (st : St) (data : JobRecord) (r2 : String) (clips : List String)
    (hjob : JobStore.get st jobId = some data)
    (htok : tok = some data.job_token) (htokne : data.job_token ≠ "")
    (hst : data.status = "SUCCEEDED")
    (hr2 : data.r2Dir = some r2) (hr2ne : r2 ≠ "")
    (hman : env.manifest r2 = some clips)
    (hmem : clips.contains clipFile = true) :
    (previewHandler env jobId clipFile tok st).1 =
      .okU (env.signUrl (dropTrailingSlashes r2 ++ "/" ++ clipFile) 600) 600
    ∧ (∀ f, (previewHandler env jobId clipFile tok { st with ent := f }).1 =
        (previewHandler env jobId clipFile tok st).1)
    ∧ ((downloadHandler env jobId clipFile tok st).1 =
        .okU (env.signUrl (dropTrailingSlashes r2 ++ "/" ++ clipFile) 86400) 86400
        ↔ st.ent jobId clipFile = true)
    ∧ (st.ent jobId clipFile = false →
        (downloadHandler env jobId clipFile tok st).1 = .lockedR) := by
  have hkey := resolveClipKey_key env clipFile data r2 clips hst hr2 hr2ne hman hmem
  subst htok
  have hprev : ∀ (s : St), JobStore.get s jobId = some data →
      (previewHandler env jobId clipFile (some data.job_token) s).1 =
        .okU (env.signUrl (dropTrailingSlashes r2 ++ "/" ++ clipFile) 600) 600 := by
    intro s hs
    unfold previewHandler
    (repeat' split) <;> simp_all
  refine ⟨hprev st hjob, ?_, ?_, ?_⟩
  · intro f
    rw [hprev { st with ent := f } hjob, hprev st hjob]
  · by_cases hent : st.ent jobId clipFile = true
    · unfold downloadHandler
      (repeat' split) <;> simp_all [JobStore.isClipUnlocked]
    · simp only [Bool.not_eq_true] at hent
      unfold downloadHandler
      (repeat' split) <;> simp_all [JobStore.isClipUnlocked]
  · intro hent
    unfold downloadHandler
    (repeat' split) <;> simp_all [JobStore.isClipUnlocked]

/-- Witness for `preview_download_gating` on the concrete fixtures (all
hypotheses discharged at `stC`, where the clip is locked). -/
theorem preview_download_gating_witness :
    (previewHandler envC jidC "c1.mp4" (some "jt") stC).1 =
      .okU (envC.signUrl (dropTrailingSlashes "jobs/j1" ++ "/" ++ "c1.mp4") 600) 600
    ∧ (∀ f, (previewHandler envC jidC "c1.mp4" (some "jt") { stC with ent := f }).1 =
        (previewHandler envC jidC "c1.mp4" (some "jt") stC).1)
    ∧ ((downloadHandler envC jidC "c1.mp4" (some "jt") stC).1 =
        .okU (envC.signUrl (dropTrailingSlashes "jobs/j1" ++ "/" ++ "c1.mp4") 86400) 86400
        ↔ stC.ent jidC "c1.mp4" = true)
    ∧ (stC.ent jidC "c1.mp4" = false →
        (downloadHandler envC jidC "c1.mp4" (some "jt") stC).1 = .lockedR) :=
  preview_download_gating envC jidC "c1.mp4" (some "jt") stC jobC "jobs/j1"
    ["c1.mp4", "c2.mp4"] (by decide) (by decide) (by decide) (by decide) (by decide)
    (by decide) (by decide) (by decide)

/-- Counterexample to C5: a callback moving a SUCCEEDED job back to
QUEUED is accepted with 200 `{ok:true}` (not rejected with 400), and the
regressed status is then observable through `GET /api/jobs/:jobId` — the
handler performs no transition validation, so the observed status is not
monotonic. -/
theorem callback_accepts_backward_transition :
    (callbackHandler envC (some "CBTOK") { job_id := jidC, statusB := "QUEUED" } stC).1 = .okR
    ∧ getJobHandler jidC
        (callbackHandler envC (some "CBTOK") { job_id := jidC, statusB := "QUEUED" } stC).2 =
      .okJ "QUEUED" none none := by
  refine ⟨by decide, by decide⟩

/-- The callback merge always installs the payload's status. -/
theorem applyCallback_status (data : JobRecord) (body : CbBody) :
    (applyCallback data body).status = body.statusB := by
  rcases body with ⟨jid, stat, stg, prog, r2b, errB⟩
  simp only [applyCallback]
  rcases prog with _ | pr <;> rcases r2b with _ | s2 <;> rcases errB with _ | s3 <;>
    simp [apply_ite (fun r : JobRecord => r.status)]

/-- C5 (amended): the callback endpoint validates only the shared-secret
header, the job-id syntax, the status enum and the job's existence; any
such callback is accepted with 200 and unconditionally replaces the
stored status with the payload's status (no transition check against
the current status), which is then what `GET /api/jobs/:jobId`
observes. -/
theorem callback_replaces_status_unconditionally (env : Env) (tH : Option String)
    (body : CbBody) (st : St) (data : JobRecord)
    (htok : tH = some env.callbackToken)
    (hid : body.job_id ≠ "") (hvalid : isValidJobId body.job_id = true)
    (hstat : jobStatusValues.contains body.statusB = true)
    (hjob : JobStore.get st body.job_id = some data) :
    callbackHandler env tH body st =
      (.okR, JobStore.set st body.job_id (applyCallback data body))
    ∧ getJobHandler body.job_id (callbackHandler env tH body st).2 =
      .okJ body.statusB (applyCallback data body).stage (applyCallback data body).progress := by
  subst htok
  have hstat' : body.statusB ∈ jobStatusValues := by simpa using hstat
  have h1 : callbackHandler env (some env.callbackToken) body st =
      (.okR, JobStore.set st body.job_id (applyCallback data body)) := by
    simp [callbackHandler, hid, hvalid, hstat', hjob]
  refine ⟨h1, ?_⟩
  rw [h1]
  simp [getJobHandler, JobStore.get, JobStore.set, applyCallback_status]

/-- Witness for `callback_replaces_status_unconditionally`: the concrete
backward SUCCEEDED→QUEUED callback is accepted and observed. -/
theorem callback_replaces_status_unconditionally_witness :
    callbackHandler envC (some "CBTOK") { job_id := jidC, statusB := "QUEUED" } stC =
      (.okR, JobStore.set stC jidC
        (applyCallback jobC { job_id := jidC, statusB := "QUEUED" }))
    ∧ getJobHandler jidC
        (callbackHandler envC (some "CBTOK") { job_id := jidC, statusB := "QUEUED" } stC).2 =
      .okJ "QUEUED"
        (applyCallback jobC { job_id := jidC, statusB := "QUEUED" }).stage
        (applyCallback jobC { job_id := jidC, statusB := "QUEUED" }).progress :=
  callback_replaces_status_unconditionally envC (some "CBTOK")
    { job_id := jidC, statusB := "QUEUED" } stC jobC rfl (by decide) (by decide)
    (by decide) (by decide)

/-- A challenge string is never empty. -/
theorem challenge_ne_empty (w nonce ts : String) :
    "KANGKLIP_AUTH:" ++ w ++ ":" ++ nonce ++ ":" ++ ts ≠ "" := by
  intro h
  have hl := congrArg String.length h
  rw [show ("" : String).length = 0 from rfl] at hl
  simp only [String.length_append] at hl
  rw [show ("KANGKLIP_AUTH:" : String).length = 14 from rfl] at hl
  omega

/-- C7 (amended): the auth round trip.  A nonce issued by the challenge
endpoint and signed by the bound wallet yields 200 with an auth token
(TTL 86400) bound to that wallet, and the nonce is deleted.  Submitting
the same signature and nonce with any *other* wallet is rejected with
HTTP 400 "invalid nonce" (the wallet-binding check precedes signature
verification) — not 401; 401 is returned exactly when the Ed25519
verification of the challenge bytes fails. -/
theorem auth_round_trip (env : Env) (w w2 nonce ts sig tok : String) (st : St)
    (hw : env.validKey w = true) (hwne : w ≠ "")
    (hnne : nonce ≠ "") (hsne : sig ≠ "")
    (hver : env.edVerify w ("KANGKLIP_AUTH:" ++ w ++ ":" ++ nonce ++ ":" ++ ts) sig = true)
    (hw2 : env.validKey w2 = true) (hw2ne : w2 ≠ "") (hdiff : w2 ≠ w) :
    (challengeHandler env (some w) nonce ts st).1 =
      .okC w ("KANGKLIP_AUTH:" ++ w ++ ":" ++ nonce ++ ":" ++ ts) nonce 300
    ∧ verifyHandler env (some w) (some nonce) (some sig) tok
        (challengeHandler env (some w) nonce ts st).2 =
      (.okV tok 86400,
       JobStore.deleteAuthNonce
         (JobStore.setAuthToken (challengeHandler env (some w) nonce ts st).2 tok w) nonce)
    ∧ (JobStore.deleteAuthNonce
         (JobStore.setAuthToken (challengeHandler env (some w) nonce ts st).2 tok w)
         nonce).authToken tok = some w
    ∧ verifyHandler env (some w2) (some nonce) (some sig) tok
        (challengeHandler env (some w) nonce ts st).2 =
      (.badRequestV "invalid nonce", (challengeHandler env (some w) nonce ts st).2)
    ∧ (∀ sig2, sig2 ≠ "" →
        env.edVerify w ("KANGKLIP_AUTH:" ++ w ++ ":" ++ nonce ++ ":" ++ ts) sig2 = false →
        verifyHandler env (some w) (some nonce) (some sig2) tok
          (challengeHandler env (some w) nonce ts st).2 =
        (.unauthorizedV "invalid signature", (challengeHandler env (some w) nonce ts st).2)) := by
  have hchal := challenge_ne_empty w nonce ts
  have hst1 : (challengeHandler env (some w) nonce ts st).2 =
      JobStore.setAuthNonce st nonce
        ⟨w, "KANGKLIP_AUTH:" ++ w ++ ":" ++ nonce ++ ":" ++ ts, env.nowMs + 300 * 1000⟩ := by
    simp [challengeHandler, hw, hwne]
  have hget : JobStore.getAuthNonce (challengeHandler env (some w) nonce ts st).2 nonce =
      some ⟨w, "KANGKLIP_AUTH:" ++ w ++ ":" ++ nonce ++ ":" ++ ts, env.nowMs + 300 * 1000⟩ := by
    rw [hst1]
    simp [JobStore.getAuthNonce, JobStore.setAuthNonce]
  have hexp : ¬ ((env.nowMs + 300 * 1000 : Int) ≠ 0 ∧ env.nowMs > env.nowMs + 300 * 1000) := by
    omega
  refine ⟨by simp [challengeHandler, hw, hwne], ?_, ?_, ?_, ?_⟩
  · simp [verifyHandler, hw, hwne, hnne, hsne, hget, hchal, hexp, hver]
  · simp [JobStore.deleteAuthNonce, JobStore.setAuthToken]
  · have hdiff' : w ≠ w2 := fun h => hdiff h.symm
    simp [verifyHandler, hw2, hw2ne, hnne, hsne, hget, hwne, hdiff']
  · intro sig2 hs2ne hs2bad
    simp [verifyHandler, hw, hwne, hnne, hs2ne, hget, hchal, hexp, hs2bad]

/-- A concrete auth environment: `SIG1` is a valid Ed25519 signature
exactly for wallet `W1` over its concrete challenge string. -/
def envA : Env :=
  { envC with
    edVerify := fun w m s =>
      w == "W1" && m == "KANGKLIP_AUTH:W1:n1:t1" && s == "SIG1" }

/-- Witness for `auth_round_trip` at the concrete fixtures. -/
theorem auth_round_trip_witness :
    (challengeHandler envA (some "W1") "n1" "t1" stC).1 =
      .okC "W1" ("KANGKLIP_AUTH:" ++ "W1" ++ ":" ++ "n1" ++ ":" ++ "t1") "n1" 300
    ∧ verifyHandler envA (some "W1") (some "n1") (some "SIG1") "tok1"
        (challengeHandler envA (some "W1") "n1" "t1" stC).2 =
      (.okV "tok1" 86400,
       JobStore.deleteAuthNonce
         (JobStore.setAuthToken (challengeHandler envA (some "W1") "n1" "t1" stC).2
           "tok1" "W1") "n1")
    ∧ (JobStore.deleteAuthNonce
         (JobStore.setAuthToken (challengeHandler envA (some "W1") "n1" "t1" stC).2
           "tok1" "W1") "n1").authToken "tok1" = some "W1"
    ∧ verifyHandler envA (some "W2") (some "n1") (some "SIG1") "tok1"
        (challengeHandler envA (some "W1") "n1" "t1" stC).2 =
      (.badRequestV "invalid nonce", (challengeHandler envA (some "W1") "n1" "t1" stC).2)
    ∧ (∀ sig2, sig2 ≠ "" →
        envA.edVerify "W1" ("KANGKLIP_AUTH:" ++ "W1" ++ ":" ++ "n1" ++ ":" ++ "t1") sig2 = false →
        verifyHandler envA (some "W1") (some "n1") (some sig2) "tok1"
          (challengeHandler envA (some "W1") "n1" "t1" stC).2 =
        (.unauthorizedV "invalid signature", (challengeHandler envA (some "W1") "n1" "t1" stC).2)) :=
  auth_round_trip envA "W1" "W2" "n1" "t1" "SIG1" "tok1" stC (by decide) (by decide)
    (by decide) (by decide) (by decide) (by decide) (by decide) (by decide)

/-- Counterexample to C7's last conjunct: the signature `SIG1` validly
authenticates wallet `W1` (the bound wallet round-trips to a token), yet
submitting the very same signature and nonce with wallet `W2` yields the
400 response `{"detail":"invalid nonce"}`, not HTTP 401. -/
theorem auth_other_wallet_gets_400 :
    (verifyHandler envA (some "W1") (some "n1") (some "SIG1") "tok1"
        (challengeHandler envA (some "W1") "n1" "t1" stC).2).1 = .okV "tok1" 86400
    ∧ (verifyHandler envA (some "W2") (some "n1") (some "SIG1") "tok1"
        (challengeHandler envA (some "W1") "n1" "t1" stC).2).1 =
      .badRequestV "invalid nonce" := by
  refine ⟨by decide, by decide⟩

/-- The `pay_usdc` discriminator has 8 bytes. -/
theorem payUsdc_discriminator_length :
    (anchorDiscriminator "global:pay_usdc").length = 8 := by decide

/-- The little-endian u64 encoding has 8 bytes. -/
theorem u64le_length (n : Nat) : (u64le n).length = 8 := by
  simp [u64le]

/-- C8: for an authenticated topup intent with integer `credits_to_buy`
`c > 0`, the response has `amount_base_units = c * 100000`,
`credit_unit = 100000`, and its `instruction_data` is the base64 encoding
of exactly 16 bytes whose first 8 bytes are
`sha256("global:pay_usdc")[0..8]` and whose last 8 bytes are the
little-endian u64 of `amount_base_units`.  (The bound `c * 100000 < 2⁶⁴`
matches `Buffer.writeBigUInt64LE`, which throws outside that range.) -/
theorem topup_intent_encoding (env : Env) (tok : Option String) (c : Int) (st : St)
    (wallet : String)
    (hgate : requireAuthToken st tok = .okG wallet)
    (hkeyw : env.validKey wallet = true)
    (hc : 0 < c) (hbound : c * 100000 < 2 ^ 64) :
    intentHandler env tok (some c) st =
      (.okI { wallet_address := wallet, credits_to_buy := c,
              amount_base_units := c * 100000, credit_unit := 100000,
              program_id := env.creditsProgramId, config_pda := env.configPda,
              user_credit_pda := env.userCreditPda wallet,
              vault_ata := env.ata env.configPda env.usdcMint,
              user_usdc_ata := env.ata wallet env.usdcMint,
              usdc_mint := env.usdcMint,
              instruction_data :=
                base64Encode (buildPayUsdcInstructionData (c * 100000).toNat) }, st)
    ∧ (buildPayUsdcInstructionData (c * 100000).toNat).length = 16
    ∧ (buildPayUsdcInstructionData (c * 100000).toNat).take 8 =
        (sha256 (strBytes "global:pay_usdc")).take 8
    ∧ (buildPayUsdcInstructionData (c * 100000).toNat).drop 8 =
        u64le (c * 100000).toNat := by
  have hnle : ¬ c ≤ 0 := not_le.mpr hc
  refine ⟨?_, ?_, ?_, ?_⟩
  · simp [intentHandler, hgate, hkeyw, hnle, CREDIT_UNIT]
  · simp [buildPayUsdcInstructionData, payUsdc_discriminator_length, u64le_length]
  · rw [buildPayUsdcInstructionData,
      List.take_left' payUsdc_discriminator_length]
    rfl
  · rw [buildPayUsdcInstructionData,
      List.drop_left' payUsdc_discriminator_length]

/-- Witness for `topup_intent_encoding` at `credits_to_buy = 5`. -/
theorem topup_intent_encoding_witness :
    intentHandler envC (some "at") (some 5) stC =
      (.okI { wallet_address := "W1", credits_to_buy := 5,
              amount_base_units := 5 * 100000, credit_unit := 100000,
              program_id := envC.creditsProgramId, config_pda := envC.configPda,
              user_credit_pda := envC.userCreditPda "W1",
              vault_ata := envC.ata envC.configPda envC.usdcMint,
              user_usdc_ata := envC.ata "W1" envC.usdcMint,
              usdc_mint := envC.usdcMint,
              instruction_data :=
                base64Encode (buildPayUsdcInstructionData ((5 : Int) * 100000).toNat) }, stC)
    ∧ (buildPayUsdcInstructionData ((5 : Int) * 100000).toNat).length = 16
    ∧ (buildPayUsdcInstructionData ((5 : Int) * 100000).toNat).take 8 =
        (sha256 (strBytes "global:pay_usdc")).take 8
    ∧ (buildPayUsdcInstructionData ((5 : Int) * 100000).toNat).drop 8 =
        u64le ((5 : Int) * 100000).toNat :=
  topup_intent_encoding envC (some "at") 5 stC "W1" (by decide) (by decide)
    (by decide) (by decide)

/-- A parsed transaction that invoked the credits program and carries no
token-transfer information at all. -/
def txC : PTx := { outer := [{ programId := some "CREDPROG" }], inner := [], err := false }

/-- C10: an authenticated topup confirm whose signature resolves to a
parsed transaction with `meta.err` unset and at least one instruction
whose `programId`/`program` equals the credits program id is credited:
200 `{credited:true, new_balance}` with the signature marked set-once —
and the handler checks nothing else about the transaction: its outcome
is invariant under swapping the transaction for any other with the same
`err` flag and the same program-membership bit (in particular it never
inspects the signer, the transfer source, or any amount — the
`totalUsdcTransferred` helper plays no role). -/
theorem topup_confirm_no_wallet_or_amount_check :
    (∀ (env : Env) (tok : Option String) (sig : String) (st : St) (wallet : String)
       (tx : PTx),
      requireAuthToken st tok = .okG wallet → env.validKey wallet = true → sig ≠ "" →
      st.topupSig sig = false → env.parsedTx sig = some tx → tx.err = false →
      hasProgramInstruction tx env.creditsProgramId = true →
      confirmHandler env tok (some sig) st =
        (.okT (st.chain wallet),
         { st with topupSig := fun k => if k = sig then true else st.topupSig k }))
    ∧ (∀ (env : Env) (tok : Option String) (sig : String) (st : St) (tx₁ tx₂ : PTx),
      tx₁.err = tx₂.err →
      hasProgramInstruction tx₁ env.creditsProgramId =
        hasProgramInstruction tx₂ env.creditsProgramId →
      confirmHandler
        { env with parsedTx := fun x => if x = sig then some tx₁ else env.parsedTx x }
        tok (some sig) st =
      confirmHandler
        { env with parsedTx := fun x => if x = sig then some tx₂ else env.parsedTx x }
        tok (some sig) st) := by
  constructor
  · intro env tok sig st wallet tx hgate hkeyw hsig hmark htx herr hprog
    simp [confirmHandler, hgate, hkeyw, hsig, hmark, htx, herr, hprog,
      JobStore.hasTopupSignature, JobStore.markTopupSignature, fetchOnchainCredits]
  · intro env tok sig st tx₁ tx₂ h1 h2
    simp only [confirmHandler]
    rcases hg : requireAuthToken st tok with w | d
    · by_cases hkeyw : env.validKey w <;> simp only [hkeyw, not_true, not_false_iff,
        if_true, if_false, ite_true, ite_false]
      · by_cases hsg : sig = "" <;> simp [hsg]
        by_cases hmark : JobStore.hasTopupSignature st sig <;> simp [hmark]
        rw [h1, h2]
      · rfl
    · rfl

/-- Witness for `topup_confirm_no_wallet_or_amount_check`: the concrete
transaction `txC` (no transfer data at all) is credited. -/
theorem topup_confirm_no_wallet_or_amount_check_witness :
    confirmHandler { envC with parsedTx := fun x => if x = "sg1" then some txC else none }
        (some "at") (some "sg1") stC =
      (.okT (stC.chain "W1"),
       { stC with topupSig := fun k => if k = "sg1" then true else stC.topupSig k }) :=
  topup_confirm_no_wallet_or_amount_check.1
    { envC with parsedTx := fun x => if x = "sg1" then some txC else none }
    (some "at") "sg1" stC "W1" txC (by decide) (by decide) (by decide) (by decide)
    (by simp) (by decide) (by decide)

/-- When the clip is already unlocked, every path of the unlock machine
finishes with the 200 body `{unlocked:true, charged_credits:0,
idempotency:REPLAY}` — through the crash-recovery branch if a matching
pending marker exists, and through the already-unlocked fast path
otherwise. -/
theorem runSolo_already_unlocked (p : UParams) (st : St)
    (hent : st.ent p.jobId p.clipFile = true) :
    (runSolo p 20 (.run .readChain1) st).1 =
      .done (.ok (.fin p.jobId p.clipFile none true 0 .REPLAY)) := by
  rcases hp : st.pendingU p.reqId with _ | rec
  · simp [runSolo, ustep, JobStore.getUnlockPending, hp, JobStore.isClipUnlocked, hent,
      JobStore.setIdempotencyResult]
  · by_cases hm : rec.jobId = p.jobId ∧ rec.clipFile = p.clipFile
    · simp [runSolo, ustep, JobStore.getUnlockPending, hp, hm, JobStore.setClipUnlocked,
        JobStore.deleteUnlockPending, JobStore.setIdempotencyResult]
    · simp [runSolo, ustep, JobStore.getUnlockPending, hp, hm, JobStore.isClipUnlocked,
        hent, JobStore.setIdempotencyResult]

/-- C4 (amended): once `ClipUnlock(jobId, clipFile)` has been recorded —
as it is by a first successful (`NEW`, `charged_credits=1`) unlock —
every later unlock request for that clip, in particular a replay with
the same `unlockRequestId`, receives 200 with the body
`{unlocked:true, charged_credits:0, idempotency:REPLAY}`: the
already-unlocked fast path precedes the idempotency lookup, so the
replay body is not byte-equal to the original NEW response (its
`charged_credits` and `idempotency` fields differ). -/
theorem unlock_replay_returns_replay_zero (env : Env) (jobId clipFile : String)
    (atok reqId : String) (st : St) (data : JobRecord) (r2 : String)
    (clips : List String) (wallet : String)
    (hjob : JobStore.get st jobId = some data) (htokne : data.job_token ≠ "")
    (hat : JobStore.getAuthTokenWallet st atok = some wallet)
    (hatne : atok ≠ "") (hwne : wallet ≠ "")
    (hst : data.status = "SUCCEEDED") (hrne : reqId ≠ "")
    (hkeyw : env.validKey wallet = true)
    (hr2 : data.r2Dir = some r2) (hr2ne : r2 ≠ "")
    (hman : env.manifest r2 = some clips) (hmem : clips.contains clipFile = true)
    (hent : st.ent jobId clipFile = true) :
    (unlockHandler env jobId clipFile (some data.job_token) (some atok) (some reqId) st).1 =
      .ok (.fin jobId clipFile none true 0 .REPLAY) := by
  have hmem' : clipFile ∈ clips := by simpa using hmem
  have hrun := runSolo_already_unlocked ⟨jobId, clipFile, wallet, reqId⟩ st hent
  unfold unlockHandler
  (repeat' split) <;> simp_all [toHttp]

/-- Counterexample to C4: from the fresh state the first unlock with
request id `R1` answers 200 `{unlocked:true, charged_credits:1,
idempotency:"NEW"}`, but replaying the very same request id afterwards
answers 200 `{unlocked:true, charged_credits:0, idempotency:"REPLAY"}` —
not the byte-equal body of the first final response. -/
theorem unlock_replay_not_byte_equal :
    (unlockHandler envC jidC "c1.mp4" (some "jt") (some "at") (some "R1") stC).1 =
      .ok (.fin jidC "c1.mp4" none true 1 .NEW)
    ∧ (unlockHandler envC jidC "c1.mp4" (some "jt") (some "at") (some "R1")
        (unlockHandler envC jidC "c1.mp4" (some "jt") (some "at") (some "R1") stC).2).1 =
      .ok (.fin jidC "c1.mp4" none true 0 .REPLAY)
    ∧ (UnlockHttp.ok (.fin jidC "c1.mp4" none true 0 .REPLAY) ≠
        UnlockHttp.ok (.fin jidC "c1.mp4" none true 1 .NEW)) := by
  refine ⟨by decide, by decide, by decide⟩

/-- Witness for `unlock_replay_returns_replay_zero`: replaying `R1`
against the state left by the first successful unlock. -/
theorem unlock_replay_returns_replay_zero_witness :
    (unlockHandler envC jidC "c1.mp4" (some "jt") (some "at") (some "R1")
        (unlockHandler envC jidC "c1.mp4" (some "jt") (some "at") (some "R1") stC).2).1 =
      .ok (.fin jidC "c1.mp4" none true 0 .REPLAY) :=
  unlock_replay_returns_replay_zero envC jidC "c1.mp4" "at" "R1"
    (unlockHandler envC jidC "c1.mp4" (some "jt") (some "at") (some "R1") stC).2
    jobC "jobs/j1" ["c1.mp4", "c2.mp4"] "W1" (by decide) (by decide) (by decide)
    (by decide) (by decide) (by decide) (by decide) (by decide) (by decide)
    (by decide) (by decide) (by decide) (by decide)

/-! ## Concurrency invariants for the unlock machine -/

/-- Program counters reachable only after winning the `SET NX` of
`setIdempotencyIfAbsent` (the "winner section", through which every
final NEW write happens). -/
def winnerPc : UPc → Bool
  | .readChain2 | .insufSetIdem | .consume | .failReadChain | .failSetIdem _
  | .setPendingPc | .setEntPc | .delPendingPc | .finalSetIdem => true
  | _ => false

/-- 1 while a thread is inside the winner section. -/
def wFlag : UThread → Nat
  | .run pc => if winnerPc pc then 1 else 0
  | .done _ => 0

/-- Invariant for two unlock requests sharing the request id `r`: the
number of final NEW idempotency writes under `r` plus the number of
threads currently in the winner section never exceeds 1, and is 0 while
`idem:r` is still absent (the NX write gates entry, and `idem:r` is
never deleted). -/
def InvC2 (r : String) (t1 t2 : UThread) (st : St) : Prop :=
  st.idemNewWrites r + wFlag t1 + wFlag t2 ≤ 1
  ∧ (st.idem r = none → st.idemNewWrites r + wFlag t1 + wFlag t2 = 0)

/-- `InvC2` is symmetric in the two threads. -/
theorem invC2_comm (r : String) (t1 t2 : UThread) (st : St) :
    InvC2 r t1 t2 st → InvC2 r t2 t1 st := by
  intro ⟨h1, h2⟩
  exact ⟨by omega, fun h => by have := h2 h; omega⟩

/-- One machine step of a thread keyed on `r` preserves `InvC2`
(the idle thread `other` is untouched). -/
theorem invC2_step (p : UParams) (r : String) (hp : p.reqId = r)
    (t other : UThread) (st : St)
    (hinv : InvC2 r t other st) :
    InvC2 r (ustep p t st).1 other (ustep p t st).2 := by
  subst hp
  unfold InvC2 at hinv ⊢
  revert hinv
  generalize wFlag other = wo
  intro hinv
  obtain ⟨ha, hb⟩ := hinv
  rcases t with pc | rr
  · cases pc
    case readChain1 => exact ⟨ha, hb⟩
    case readSpent => exact ⟨ha, hb⟩
    case getPending =>
      simp only [ustep, JobStore.getUnlockPending]
      rcases st.pendingU p.reqId with _ | rec
      · exact ⟨ha, hb⟩
      · by_cases hm : rec.jobId = p.jobId ∧ rec.clipFile = p.clipFile
        · simp only [if_pos hm]
          exact ⟨ha, hb⟩
        · simp only [if_neg hm]
          exact ⟨ha, hb⟩
    case recSetEnt => exact ⟨ha, hb⟩
    case recDelPending => exact ⟨ha, hb⟩
    case recSetIdem =>
      refine ⟨?_, fun h => ?_⟩
      · simp only [ustep, JobStore.setIdempotencyResult, isNewFinal, wFlag, winnerPc]
          at ha ⊢
        simp at ha ⊢
        omega
      · simp [ustep, JobStore.setIdempotencyResult] at h
    case checkEnt =>
      simp only [ustep, JobStore.isClipUnlocked]
      split
      · exact ⟨ha, hb⟩
      · exact ⟨ha, hb⟩
    case fastSetIdem =>
      refine ⟨?_, fun h => ?_⟩
      · simp only [ustep, JobStore.setIdempotencyResult, isNewFinal, wFlag, winnerPc]
          at ha ⊢
        simp at ha ⊢
        omega
      · simp [ustep, JobStore.setIdempotencyResult] at h
    case getIdem =>
      simp only [ustep, JobStore.getIdempotencyResult]
      rcases st.idem p.reqId with _ | rec
      · exact ⟨ha, hb⟩
      · rcases rec with _ | ⟨j, c, w, u, ch, tg⟩
        · exact ⟨ha, hb⟩
        · exact ⟨ha, hb⟩
    case setIdemNX =>
      simp only [ustep, JobStore.setIdempotencyIfAbsent]
      rcases hi : st.idem p.reqId with _ | rec
      · have h0 := hb hi
        simp only [hi, Option.isSome_none, Bool.false_eq_true, reduceIte]
        refine ⟨?_, fun h => ?_⟩
        · simp only [wFlag, winnerPc, JobStore.setIdempotencyResult, isNewFinal] at h0 ⊢
          simp at h0 ⊢
          omega
        · simp [JobStore.setIdempotencyResult] at h
      · simp only [hi, Option.isSome_some, reduceIte]
        exact ⟨ha, fun h => Option.noConfusion h⟩
    case reGetIdem =>
      simp only [ustep, JobStore.getIdempotencyResult]
      rcases st.idem p.reqId with _ | rec
      · exact ⟨ha, hb⟩
      · exact ⟨ha, hb⟩
    case readChain2 =>
      simp only [ustep, fetchOnchainCredits]
      split
      · exact ⟨ha, hb⟩
      · exact ⟨ha, hb⟩
    case insufSetIdem =>
      refine ⟨?_, fun h => ?_⟩
      · simp only [ustep, JobStore.setIdempotencyResult, isNewFinal, wFlag, winnerPc]
          at ha ⊢
        simp at ha ⊢
        omega
      · simp [ustep, JobStore.setIdempotencyResult] at h
    case consume =>
      simp only [ustep]
      split
      · exact ⟨ha, hb⟩
      · exact ⟨ha, hb⟩
    case failReadChain => exact ⟨ha, hb⟩
    case failSetIdem v =>
      refine ⟨?_, fun h => ?_⟩
      · simp only [ustep, JobStore.setIdempotencyResult, isNewFinal, wFlag, winnerPc]
          at ha ⊢
        simp at ha ⊢
        omega
      · simp [ustep, JobStore.setIdempotencyResult] at h
    case setPendingPc => exact ⟨ha, hb⟩
    case setEntPc => exact ⟨ha, hb⟩
    case delPendingPc => exact ⟨ha, hb⟩
    case finalSetIdem =>
      refine ⟨?_, fun h => ?_⟩
      · simp only [ustep, JobStore.setIdempotencyResult, isNewFinal, wFlag, winnerPc]
          at ha ⊢
        simp at ha ⊢
        omega
      · simp [ustep, JobStore.setIdempotencyResult] at h
  · exact ⟨ha, hb⟩

/-- `InvC2` is preserved by every schedule. -/
theorem invC2_run (p1 p2 : UParams) (r : String)
    (h1 : p1.reqId = r) (h2 : p2.reqId = r) (sched : List Bool)
    (t1 t2 : UThread) (st : St) (hinv : InvC2 r t1 t2 st) :
    InvC2 r (runSched p1 p2 sched (t1, t2) st).1.1
      (runSched p1 p2 sched (t1, t2) st).1.2
      (runSched p1 p2 sched (t1, t2) st).2 := by
  induction sched generalizing t1 t2 st with
  | nil => exact hinv
  | cons b rest ih =>
    cases b with
    | true =>
      have hstep := invC2_step p1 r h1 t1 t2 st hinv
      simpa [runSched] using ih (ustep p1 t1 st).1 t2 (ustep p1 t1 st).2 hstep
    | false =>
      have hstep := invC2_comm r (ustep p2 t2 st).1 t1 (ustep p2 t2 st).2
        (invC2_step p2 r h2 t2 t1 st (invC2_comm r t1 t2 st hinv))
      simpa [runSched] using ih t1 (ustep p2 t2 st).1 (ustep p2 t2 st).2 hstep

/-- C2 (amended): for any two concurrent unlock requests carrying the
same `unlockRequestId` `r`, under every interleaving at most one final
NEW IdempotencyResult is ever written under `r` — enforced by the atomic
`SET NX` of `setIdempotencyIfAbsent` alone (the store's scripted
primitive `consumeCredit` is not invoked by the endpoint); concurrent
attempts that lose the race observe 409 or the stored (possibly still
pending) record instead. -/
theorem unlock_at_most_one_new_final (p1 p2 : UParams) (r : String)
    (h1 : p1.reqId = r) (h2 : p2.reqId = r) (st : St) (sched : List Bool)
    (hghost : st.idemNewWrites r = 0) :
    ((runSched p1 p2 sched (.run .readChain1, .run .readChain1) st).2).idemNewWrites r ≤ 1 := by
  have hinv0 : InvC2 r (.run .readChain1) (.run .readChain1) st := by
    refine ⟨?_, fun _ => ?_⟩ <;> simp [wFlag, winnerPc, hghost]
  have hfin := invC2_run p1 p2 r h1 h2 sched (.run .readChain1) (.run .readChain1) st hinv0
  have := hfin.1
  omega

/-- Witness for `unlock_at_most_one_new_final`: the two same-id requests
of the C2 race on the concrete fixtures, under a full interleaving in
which the first request wins the NX write and charges. -/
theorem unlock_at_most_one_new_final_witness :
    ((runSched ⟨jidC, "c1.mp4", "W1", "R1"⟩ ⟨jidC, "c1.mp4", "W1", "R1"⟩
        [true, true, true, true, true, true, false, false, false, false, false,
         true, true, true, true, true, true]
        (.run .readChain1, .run .readChain1) stC).2).idemNewWrites "R1" ≤ 1 :=
  unlock_at_most_one_new_final ⟨jidC, "c1.mp4", "W1", "R1"⟩ ⟨jidC, "c1.mp4", "W1", "R1"⟩
    "R1" rfl rfl stC
    [true, true, true, true, true, true, false, false, false, false, false,
     true, true, true, true, true, true]
    (by decide)

/-- Counterexample to C2's replay conjunct: with the same request id
`R1`, under the interleaving in which the first request has just won the
NX write (six steps), the concurrent second request reaches its
idempotency lookup, finds the pending marker and answers HTTP 409 — while
the first request goes on to finish 200 `{charged_credits:1, NEW}`.  The
409 response is neither a Replay result nor the final outcome of `R1`. -/
theorem concurrent_same_id_gets_409 :
    (runSched ⟨jidC, "c1.mp4", "W1", "R1"⟩ ⟨jidC, "c1.mp4", "W1", "R1"⟩
        [true, true, true, true, true, true, false, false, false, false, false,
         true, true, true, true, true, true]
        (.run .readChain1, .run .readChain1) stC).1.2 = .done .conflict
    ∧ (runSched ⟨jidC, "c1.mp4", "W1", "R1"⟩ ⟨jidC, "c1.mp4", "W1", "R1"⟩
        [true, true, true, true, true, true, false, false, false, false, false,
         true, true, true, true, true, true]
        (.run .readChain1, .run .readChain1) stC).1.1 =
      .done (.ok (.fin jidC "c1.mp4" none true 1 .NEW))
    ∧ (UThread.done .conflict ≠
        UThread.done (.ok (.fin jidC "c1.mp4" none true 1 .NEW))) := by
  refine ⟨by decide, by decide, by decide⟩

/-! ## Chain-credit conservation for distinct-id races (C1) -/

/-- Program counters reachable only after a successful on-chain
`consume_credit` (and before the final response). -/
def consumedPc : UPc → Bool
  | .setPendingPc | .setEntPc | .delPendingPc | .finalSetIdem => true
  | _ => false

/-- 1 for a thread that has debited one on-chain credit: either inside
the post-consume section or finished with a `charged_credits ≥ 1`
body. -/
def cB : UThread → Nat
  | .run pc => if consumedPc pc then 1 else 0
  | .done (.ok (.fin _ _ _ _ (_ + 1) _)) => 1
  | .done _ => 0

/-- `charged_credits` carried by a completed 200 response (0 for
anything else). -/
def chargedOne : UThread → Nat
  | .done (.ok (.fin _ _ _ _ ch _)) => ch
  | _ => 0

/-- Completed responses allowed under a fresh distinct-id race: 200
`{unlocked:true, charged:0, REPLAY}`, 402, or 200
`{unlocked:true, charged:1, NEW}`. -/
def respAllowed (p : UParams) : UThread → Prop
  | .done r =>
      r = .ok (.fin p.jobId p.clipFile none true 0 .REPLAY) ∨ r = .payment
        ∨ r = .ok (.fin p.jobId p.clipFile none true 1 .NEW)
  | .run _ => True

/-- Per-thread invariant of the distinct-id race from a fresh state:
before the NX write the thread's own idempotency and pending keys are
untouched (nobody else writes them), the chain-failure branch is entered
only at balance 0, and every completed response is one of the three
allowed outcomes. -/
def TInv (p : UParams) (t : UThread) (st : St) : Prop :=
  match t with
  | .run .readChain1 => st.idem p.reqId = none ∧ st.pendingU p.reqId = none
  | .run .readSpent => st.idem p.reqId = none ∧ st.pendingU p.reqId = none
  | .run .getPending => st.idem p.reqId = none ∧ st.pendingU p.reqId = none
  | .run .recSetEnt => False
  | .run .recDelPending => False
  | .run .recSetIdem => False
  | .run .checkEnt => st.idem p.reqId = none
  | .run .fastSetIdem => True
  | .run .getIdem => st.idem p.reqId = none
  | .run .setIdemNX => st.idem p.reqId = none
  | .run .reGetIdem => False
  | .run .readChain2 => True
  | .run .insufSetIdem => True
  | .run .consume => True
  | .run .failReadChain => st.chain p.wallet = 0
  | .run (.failSetIdem v) => v = 0
  | .run .setPendingPc => True
  | .run .setEntPc => True
  | .run .delPendingPc => True
  | .run .finalSetIdem => True
  | .done r =>
      r = .ok (.fin p.jobId p.clipFile none true 0 .REPLAY) ∨ r = .payment
        ∨ r = .ok (.fin p.jobId p.clipFile none true 1 .NEW)

/-- `TInv` only inspects the state through the thread's own idempotency
and pending keys and the (never-increasing) chain balance. -/
theorem tinv_mono (p : UParams) (t : UThread) (st st' : St)
    (hi : st'.idem p.reqId = st.idem p.reqId)
    (hp : st'.pendingU p.reqId = st.pendingU p.reqId)
    (hch : st.chain p.wallet = 0 → st'.chain p.wallet = 0)
    (h : TInv p t st) : TInv p t st' := by
  rcases t with pc | r
  · cases pc
    case readChain1 => exact ⟨hi.trans h.1, hp.trans h.2⟩
    case readSpent => exact ⟨hi.trans h.1, hp.trans h.2⟩
    case getPending => exact ⟨hi.trans h.1, hp.trans h.2⟩
    case recSetEnt => exact h
    case recDelPending => exact h
    case recSetIdem => exact h
    case checkEnt => exact hi.trans h
    case fastSetIdem => trivial
    case getIdem => exact hi.trans h
    case setIdemNX => exact hi.trans h
    case reGetIdem => exact h
    case readChain2 => trivial
    case insufSetIdem => trivial
    case consume => trivial
    case failReadChain => exact hch h
    case failSetIdem v => exact h
    case setPendingPc => trivial
    case setEntPc => trivial
    case delPendingPc => trivial
    case finalSetIdem => trivial
  · exact h

/-- Global invariant of the distinct-id race: the on-chain balance plus
the number of debiting threads is the initial balance 1, and both
threads satisfy their local invariants. -/
def GInv (p1 p2 : UParams) (t1 t2 : UThread) (st : St) : Prop :=
  st.chain p1.wallet + cB t1 + cB t2 = 1 ∧ TInv p1 t1 st ∧ TInv p2 t2 st

/-- `GInv` is symmetric (both requests use the same wallet). -/
theorem ginv_swap (p1 p2 : UParams) (hw : p1.wallet = p2.wallet)
    (t1 t2 : UThread) (st : St) (h : GInv p1 p2 t1 t2 st) : GInv p2 p1 t2 t1 st := by
  obtain ⟨hc, h1, h2⟩ := h
  refine ⟨?_, h2, h1⟩
  rw [← hw]
  omega

/-- One step of the first thread preserves `GInv` (distinct request ids,
same wallet). -/
theorem ginv_step1 (p1 p2 : UParams) (t1 t2 : UThread) (st : St)
    (hr : p1.reqId ≠ p2.reqId) (hw : p1.wallet = p2.wallet)
    (hg : GInv p1 p2 t1 t2 st) :
    GInv p1 p2 (ustep p1 t1 st).1 t2 (ustep p1 t1 st).2 := by
  obtain ⟨hc, h1, h2⟩ := hg
  have hr2 : p2.reqId ≠ p1.reqId := Ne.symm hr
  rcases t1 with pc | rr
  · cases pc
    case readChain1 => exact ⟨hc, h1, h2⟩
    case readSpent => exact ⟨hc, h1, h2⟩
    case getPending =>
      obtain ⟨hi, hp⟩ := h1
      simp only [ustep, JobStore.getUnlockPending, hp]
      exact ⟨hc, hi, h2⟩
    case recSetEnt => exact h1.elim
    case recDelPending => exact h1.elim
    case recSetIdem => exact h1.elim
    case checkEnt =>
      simp only [ustep, JobStore.isClipUnlocked]
      split
      · exact ⟨hc, trivial, h2⟩
      · exact ⟨hc, h1, h2⟩
    case fastSetIdem =>
      refine ⟨hc, Or.inl rfl, ?_⟩
      refine tinv_mono p2 t2 st _ ?_ rfl (fun hz => hz) h2
      simp [ustep, JobStore.setIdempotencyResult, hr2]
    case getIdem =>
      have hi : st.idem p1.reqId = none := h1
      simp only [ustep, JobStore.getIdempotencyResult, hi]
      exact ⟨hc, hi, h2⟩
    case setIdemNX =>
      have hi : st.idem p1.reqId = none := h1
      simp only [ustep, JobStore.setIdempotencyIfAbsent, hi, Option.isSome_none,
        Bool.false_eq_true, reduceIte]
      refine ⟨hc, trivial, ?_⟩
      refine tinv_mono p2 t2 st _ ?_ rfl (fun hz => hz) h2
      simp [JobStore.setIdempotencyResult, hr2]
    case reGetIdem => exact h1.elim
    case readChain2 =>
      simp only [ustep, fetchOnchainCredits]
      split
      · exact ⟨hc, trivial, h2⟩
      · exact ⟨hc, trivial, h2⟩
    case insufSetIdem =>
      refine ⟨hc, Or.inr (Or.inl rfl), ?_⟩
      refine tinv_mono p2 t2 st _ ?_ rfl (fun hz => hz) h2
      simp [ustep, JobStore.setIdempotencyResult, hr2]
    case consume =>
      simp only [ustep]
      split
      case isTrue hge =>
        refine ⟨?_, trivial, ?_⟩
        · show (if p1.wallet = p1.wallet then st.chain p1.wallet - 1 else st.chain p1.wallet)
              + cB (.run .setPendingPc) + cB t2 = 1
          rw [if_pos rfl, show cB (.run .setPendingPc) = 1 from rfl]
          rw [show cB (.run .consume) = 0 from rfl] at hc
          omega
        · refine tinv_mono p2 t2 st _ rfl rfl (fun hz => ?_) h2
          have hpw : p2.wallet = p1.wallet := hw.symm
          show (if p2.wallet = p1.wallet then st.chain p2.wallet - 1
            else st.chain p2.wallet) = 0
          rw [if_pos hpw]
          omega
      case isFalse hlt => exact ⟨hc, (by omega : st.chain p1.wallet = 0), h2⟩
    case failReadChain =>
      simp only [ustep, fetchOnchainCredits]
      exact ⟨hc, h1, h2⟩
    case failSetIdem v =>
      have hv : v = 0 := h1
      subst hv
      simp only [ustep, show (0 : Nat) < 1 from by decide, reduceIte]
      refine ⟨hc, Or.inr (Or.inl rfl), ?_⟩
      refine tinv_mono p2 t2 st _ ?_ rfl (fun hz => hz) h2
      simp [JobStore.setIdempotencyResult, hr2]
    case setPendingPc =>
      refine ⟨hc, trivial, ?_⟩
      refine tinv_mono p2 t2 st _ rfl ?_ (fun hz => hz) h2
      simp [ustep, JobStore.setUnlockPending, hr2]
    case setEntPc =>
      exact ⟨hc, trivial, tinv_mono p2 t2 st _ rfl rfl (fun hz => hz) h2⟩
    case delPendingPc =>
      refine ⟨hc, trivial, ?_⟩
      refine tinv_mono p2 t2 st _ rfl ?_ (fun hz => hz) h2
      simp [ustep, JobStore.deleteUnlockPending, hr2]
    case finalSetIdem =>
      refine ⟨hc, Or.inr (Or.inr rfl), ?_⟩
      refine tinv_mono p2 t2 st _ ?_ rfl (fun hz => hz) h2
      simp [ustep, JobStore.setIdempotencyResult, hr2]
  · exact ⟨hc, h1, h2⟩

/-- `GInv` is preserved by every schedule. -/
theorem ginv_run (p1 p2 : UParams) (hr : p1.reqId ≠ p2.reqId)
    (hw : p1.wallet = p2.wallet) (sched : List Bool) (t1 t2 : UThread) (st : St)
    (hg : GInv p1 p2 t1 t2 st) :
    GInv p1 p2 (runSched p1 p2 sched (t1, t2) st).1.1
      (runSched p1 p2 sched (t1, t2) st).1.2
      (runSched p1 p2 sched (t1, t2) st).2 := by
  induction sched generalizing t1 t2 st with
  | nil => exact hg
  | cons b rest ih =>
    cases b with
    | true =>
      simpa [runSched] using
        ih (ustep p1 t1 st).1 t2 (ustep p1 t1 st).2 (ginv_step1 p1 p2 t1 t2 st hr hw hg)
    | false =>
      have hstep := ginv_swap p2 p1 hw.symm _ _ _
        (ginv_step1 p2 p1 t2 t1 st (Ne.symm hr) hw.symm (ginv_swap p1 p2 hw t1 t2 st hg))
      simpa [runSched] using ih t1 (ustep p2 t2 st).1 (ustep p2 t2 st).2 hstep

/-- A completed response charges at most what the conservation count
records. -/
theorem chargedOne_le_cB (p : UParams) (st : St) (t : UThread) (h : TInv p t st) :
    chargedOne t ≤ cB t := by
  rcases t with pc | r
  · simp [chargedOne]
  · rcases h with h | h | h <;> subst h <;> simp [chargedOne, cB]

/-- `TInv` restricted to completed threads is the response
classification. -/
theorem tinv_resp (p : UParams) (st : St) (t : UThread) (h : TInv p t st) :
    respAllowed p t := by
  rcases t with pc | r
  · trivial
  · exact h

/-- C1 (amended): two concurrent unlock requests with distinct
`unlockRequestId`s on the same wallet, starting from a fresh state with
on-chain balance 1 (the chain rejecting `consume_credit` beyond the
balance), never both charge: under every interleaving the completed
responses carry `charged_credits` summing to at most 1, and each
completed response is 200 `{unlocked:true, charged_credits:1, NEW}`,
200 `{unlocked:true, charged_credits:0, REPLAY}`, or 402.  (With
balance ≥ 2 both requests can charge for the same clip; see the
counterexample.) -/
theorem concurrent_unlock_single_charge (p1 p2 : UParams) (st : St) (sched : List Bool)
    (hw : p1.wallet = p2.wallet) (hr : p1.reqId ≠ p2.reqId)
    (hchain : st.chain p1.wallet = 1)
    (hi1 : st.idem p1.reqId = none) (hi2 : st.idem p2.reqId = none)
    (hp1 : st.pendingU p1.reqId = none) (hp2 : st.pendingU p2.reqId = none) :
    chargedOne (runSched p1 p2 sched (.run .readChain1, .run .readChain1) st).1.1
      + chargedOne (runSched p1 p2 sched (.run .readChain1, .run .readChain1) st).1.2 ≤ 1
    ∧ respAllowed p1 (runSched p1 p2 sched (.run .readChain1, .run .readChain1) st).1.1
    ∧ respAllowed p2 (runSched p1 p2 sched (.run .readChain1, .run .readChain1) st).1.2 := by
  have hg0 : GInv p1 p2 (.run .readChain1) (.run .readChain1) st := by
    refine ⟨?_, ⟨hi1, hp1⟩, ⟨hi2, hp2⟩⟩
    simp [cB, consumedPc, hchain]
  have hfin := ginv_run p1 p2 hr hw sched (.run .readChain1) (.run .readChain1) st hg0
  obtain ⟨hc, h1, h2⟩ := hfin
  refine ⟨?_, tinv_resp p1 _ _ h1, tinv_resp p2 _ _ h2⟩
  have l1 := chargedOne_le_cB p1 _ _ h1
  have l2 := chargedOne_le_cB p2 _ _ h2
  omega

/-- Witness for `concurrent_unlock_single_charge`: the balance-1 race of
scenario S4 on the concrete fixtures, fully interleaved. -/
theorem concurrent_unlock_single_charge_witness :
    chargedOne (runSched ⟨jidC, "c1.mp4", "W1", "R1"⟩ ⟨jidC, "c1.mp4", "W1", "R2"⟩
        [true, true, true, true, true, true, false, false, false, false, false, false,
         true, true, true, true, true, true, false, false, false, false, false, false]
        (.run .readChain1, .run .readChain1) stC).1.1
      + chargedOne (runSched ⟨jidC, "c1.mp4", "W1", "R1"⟩ ⟨jidC, "c1.mp4", "W1", "R2"⟩
        [true, true, true, true, true, true, false, false, false, false, false, false,
         true, true, true, true, true, true, false, false, false, false, false, false]
        (.run .readChain1, .run .readChain1) stC).1.2 ≤ 1
    ∧ respAllowed ⟨jidC, "c1.mp4", "W1", "R1"⟩
        (runSched ⟨jidC, "c1.mp4", "W1", "R1"⟩ ⟨jidC, "c1.mp4", "W1", "R2"⟩
        [true, true, true, true, true, true, false, false, false, false, false, false,
         true, true, true, true, true, true, false, false, false, false, false, false]
        (.run .readChain1, .run .readChain1) stC).1.1
    ∧ respAllowed ⟨jidC, "c1.mp4", "W1", "R2"⟩
        (runSched ⟨jidC, "c1.mp4", "W1", "R1"⟩ ⟨jidC, "c1.mp4", "W1", "R2"⟩
        [true, true, true, true, true, true, false, false, false, false, false, false,
         true, true, true, true, true, true, false, false, false, false, false, false]
        (.run .readChain1, .run .readChain1) stC).1.2 :=
  concurrent_unlock_single_charge ⟨jidC, "c1.mp4", "W1", "R1"⟩ ⟨jidC, "c1.mp4", "W1", "R2"⟩
    stC
    [true, true, true, true, true, true, false, false, false, false, false, false,
     true, true, true, true, true, true, false, false, false, false, false, false]
    (by decide) (by decide) (by decide) (by decide) (by decide) (by decide) (by decide)

/-- The fresh state with on-chain balance 2 for wallet `W1`. -/
def stC2 : St := { stC with chain := fun w => if w == "W1" then 2 else 0 }

/-- Counterexample to C1 as stated: with on-chain balance 2, two
concurrent unlock requests with distinct `unlockRequestId`s for the same
`(jobId, clipFile)` can BOTH answer 200 with `charged_credits = 1` —
both pass the already-unlocked check before either records the unlock,
both win their per-request-id NX writes (distinct keys), and the chain
funds both `consume_credit`s.  The set of requests charging a credit has
size 2. -/
theorem concurrent_unlock_double_charge :
    (runSched ⟨jidC, "c1.mp4", "W1", "R1"⟩ ⟨jidC, "c1.mp4", "W1", "R2"⟩
        [true, true, true, true, true, true, false, false, false, false, false, false,
         true, true, true, true, true, true, false, false, false, false, false, false]
        (.run .readChain1, .run .readChain1) stC2).1.1 =
      .done (.ok (.fin jidC "c1.mp4" none true 1 .NEW))
    ∧ (runSched ⟨jidC, "c1.mp4", "W1", "R1"⟩ ⟨jidC, "c1.mp4", "W1", "R2"⟩
        [true, true, true, true, true, true, false, false, false, false, false, false,
         true, true, true, true, true, true, false, false, false, false, false, false]
        (.run .readChain1, .run .readChain1) stC2).1.2 =
      .done (.ok (.fin jidC "c1.mp4" none true 1 .NEW)) := by
  refine ⟨by decide, by decide⟩

end KangKlip
